import Mathlib

/-!
Verification of the snap-resolution engine of `src/snap.cpp` (SnapManager).

The engine is embedded shallowly: 2-D coordinates become rational pairs,
the collaborator classes that live outside `src/` (SnappedPoint,
SnappedLine, the `getClosest*` helpers, ConstraintLine and the snapper
capability contract) are modelled from the specification, and every
method of `SnapManager` that the claims touch is translated statement by
statement from `src/snap.cpp`.  Providers (grid / guide / object
snappers) are abstract: a snapper is a record holding its `mightSnap`
flag and the candidate lists it would append for a given query point.

Euclidean pointer distances (`Geom::L2`) are stored squared: the code
only ever compares pointer distances with each other, and squaring is
strictly monotone on non-negative reals, so the order — the only
observable — is preserved while keeping all arithmetic inside `ℚ`.

Arithmetic is exact rational where the source computes in IEEE-754
doubles.  A branch decision of the embedding can therefore differ from
the compiled code only at inputs where some double operation on the
traced path rounds — notably `NR_HUGE - t`, which rounds back to
`NR_HUGE` whenever `|t|` is below half an ulp of 1e18 (the ulp there is
128).  Every concrete input used below to settle a claim is chosen so
that each double operation on its trace is exact (all intermediate
values are integers below 2^53 or multiples of 128 in the 1e18 binade),
so on those traces the double code and the rational embedding take the
same branch at every comparison and return the same values.
-/

namespace Snap

/-- Sentinel "infinite" distance, `NR_HUGE` (1e18) in the source. -/
def NR_HUGE : ℚ := 1000000000000000000

/-- A 2-D point / vector (`Geom::Point`), with rational coordinates. -/
structure Pt where
  x : ℚ
  y : ℚ
deriving DecidableEq, Repr

instance : Add Pt := ⟨fun a b => ⟨a.x + b.x, a.y + b.y⟩⟩
instance : Sub Pt := ⟨fun a b => ⟨a.x - b.x, a.y - b.y⟩⟩

theorem Pt.add_def (a b : Pt) : a + b = ⟨a.x + b.x, a.y + b.y⟩ := rfl

theorem Pt.sub_def (a b : Pt) : a - b = ⟨a.x - b.x, a.y - b.y⟩ := rfl

/-- Scalar multiple of a vector. -/
def Pt.smul (q : ℚ) (p : Pt) : Pt := ⟨q * p.x, q * p.y⟩

/-- Dot product. -/
def Pt.dot (a b : Pt) : ℚ := a.x * b.x + a.y * b.y

/-- 2-D cross product (determinant). -/
def Pt.cross (a b : Pt) : ℚ := a.x * b.y - a.y * b.x

/-- Squared Euclidean length; stands in for `Geom::L2`, order-faithfully. -/
def Pt.l2sq (a : Pt) : ℚ := a.x * a.x + a.y * a.y

/-- `Geom::Dim2`: an axis index. -/
inductive Dim2 where
  | X
  | Y
deriving DecidableEq, Repr

/-- The other axis, `1 - dim` in the source. -/
def Dim2.other : Dim2 → Dim2
  | .X => .Y
  | .Y => .X

/-- Coordinate access `p[dim]`. -/
def Pt.get (p : Pt) : Dim2 → ℚ
  | .X => p.x
  | .Y => p.y

/-- Coordinate update `p[dim] = v`. -/
def Pt.setAt (p : Pt) : Dim2 → ℚ → Pt
  | .X, v => ⟨v, p.y⟩
  | .Y, v => ⟨p.x, v⟩

/-- `component_vectors[dim]`: the unit vector of an axis. -/
def componentVector : Dim2 → Pt
  | .X => ⟨1, 0⟩
  | .Y => ⟨0, 1⟩

/-- `Inkscape::SnapSourceType`: semantic role of the point being snapped. -/
inductive SnapSourceType where
  | undefined
  | node
  | bboxPoint
  | guide
  | guideOrigin
deriving DecidableEq, Repr

/-- `Inkscape::SnapTargetType`: semantic role of what was matched. -/
inductive SnapTargetType where
  | undefined
  | gridLine
  | guideLine
  | gridIntersection
  | guideIntersection
  | gridGuideIntersection
  | path
  | pathIntersection
  | node
deriving DecidableEq, Repr

/-- Modelled from the spec: the "Snapped result" record (`Inkscape::SnappedPoint`,
whose class lives in `snapped-point.h`, not under `src/`): target point, source
kind, target kind, primary snap distance, the tolerance that applied, an
"always snap" flag, an "at intersection" flag, a secondary distance /
tolerance / flag for intersection candidates, the recovered transformation of
the batch path, and the pointer-distance tie-break metric (stored squared). -/
structure SnappedPoint where
  point : Pt
  source : SnapSourceType
  target : SnapTargetType
  distance : ℚ
  tolerance : ℚ
  alwaysSnap : Bool
  atIntersection : Bool
  secondDistance : ℚ
  secondTolerance : ℚ
  secondAlwaysSnap : Bool
  transformation : Pt
  pointerDistance : ℚ
deriving DecidableEq, Repr

/-- Modelled from the spec: the default-constructed result (`SnappedPoint()`,
not under `src/`) representing "nothing found": target kind undefined,
distance set to the sentinel "infinite" value, not snapped. -/
def SnappedPoint.defaultPoint : SnappedPoint :=
  { point := ⟨0, 0⟩
    source := .undefined
    target := .undefined
    distance := NR_HUGE
    tolerance := 0
    alwaysSnap := false
    atIntersection := false
    secondDistance := NR_HUGE
    secondTolerance := 0
    secondAlwaysSnap := false
    transformation := ⟨0, 0⟩
    pointerDistance := NR_HUGE }

/-- Modelled from the spec: "a result is snapped iff its primary distance is
finite and ≤ its tolerance" (`SnappedPoint::getSnapped`, not under `src/`). -/
def SnappedPoint.getSnapped (s : SnappedPoint) : Bool :=
  s.distance < NR_HUGE && s.distance ≤ s.tolerance

/-- Modelled from the spec: the asymmetric pairwise tie-break rule
(`SnappedPoint::isOtherSnapBetter`, not under `src/`), applied in priority
order, first criterion that differs decides: (a) "always snap" beats not;
(b) an intersection-type result beats a non-intersection result; (c) strictly
smaller primary distance wins, equal primary distances fall through to
strictly smaller secondary distance, and the final tie falls through to
smaller pointer-distance when `weighted` is set (batch transform path), else
the earlier-found candidate (`self`) is kept. -/
def SnappedPoint.isOtherSnapBetter (self other : SnappedPoint) (weighted : Bool) : Bool :=
  if other.alwaysSnap && !self.alwaysSnap then true
  else if self.alwaysSnap && !other.alwaysSnap then false
  else if other.atIntersection && !self.atIntersection then true
  else if self.atIntersection && !other.atIntersection then false
  else if other.distance < self.distance then true
  else if self.distance < other.distance then false
  else if other.secondDistance < self.secondDistance then true
  else if self.secondDistance < other.secondDistance then false
  else if weighted && other.pointerDistance < self.pointerDistance then true
  else false

/-- Modelled from the spec: a snapped 1-D candidate (`Inkscape::SnappedLine`,
not under `src/`): the nearest point on the line, its snap metrics, and the
line itself as offset + direction, enabling later intersection. -/
structure SnappedLine where
  point : Pt
  distance : ℚ
  tolerance : ℚ
  alwaysSnap : Bool
  source : SnapSourceType
  target : SnapTargetType
  linePoint : Pt
  lineDir : Pt
deriving DecidableEq, Repr

/-- Modelled from the spec: snapped curves are reduced and intersected like
lines; only their candidate record is observable to the selection policy
(`Inkscape::SnappedCurve`, not under `src/`). -/
abbrev SnappedCurve := SnappedLine

/-- Conversion of a line/curve candidate into a result candidate
(`SnappedPoint(SnappedLine const &)`, not under `src/`). -/
def SnappedLine.toSnappedPoint (l : SnappedLine) : SnappedPoint :=
  { point := l.point
    source := l.source
    target := l.target
    distance := l.distance
    tolerance := l.tolerance
    alwaysSnap := l.alwaysSnap
    atIntersection := false
    secondDistance := NR_HUGE
    secondTolerance := 0
    secondAlwaysSnap := false
    transformation := ⟨0, 0⟩
    pointerDistance := NR_HUGE }

/-- Geometric intersection of the two carried lines, `none` when parallel. -/
def lineIntersectPt (l1 l2 : SnappedLine) : Option Pt :=
  let d := Pt.cross l1.lineDir l2.lineDir
  if d = 0 then none
  else
    let t := Pt.cross (l2.linePoint - l1.linePoint) l2.lineDir / d
    some (l1.linePoint + Pt.smul t l1.lineDir)

/-- Modelled from the spec: intersecting two 1-D candidates
(`SnappedLine::intersect`, not under `src/`).  The intersection candidate
carries the metrics of the closer line as primary and of the worse line as
secondary ("distance to the worse of the two lines"), and is flagged as
being at an intersection. -/
def SnappedLine.intersect (l1 l2 : SnappedLine) : Option SnappedPoint :=
  (lineIntersectPt l1 l2).map fun ipt =>
    let firstCloser := l1.distance < l2.distance
    let pri := if firstCloser then l1 else l2
    let sec := if firstCloser then l2 else l1
    { point := ipt
      source := .undefined
      target := .undefined
      distance := pri.distance
      tolerance := pri.tolerance
      alwaysSnap := pri.alwaysSnap
      atIntersection := true
      secondDistance := sec.distance
      secondTolerance := sec.tolerance
      secondAlwaysSnap := sec.alwaysSnap
      transformation := ⟨0, 0⟩
      pointerDistance := NR_HUGE }

/-- Modelled from the spec: reduce a candidate category to its single closest
instance (`getClosestSP`, not under `src/`): first element, then any strictly
closer one, wins. -/
def getClosestSP : List SnappedPoint → Option SnappedPoint
  | [] => none
  | c :: rest =>
      some (rest.foldl (fun best q => if q.distance < best.distance then q else best) c)

/-- Modelled from the spec: closest line candidate (`getClosestSL`, not under
`src/`). -/
def getClosestSL : List SnappedLine → Option SnappedLine
  | [] => none
  | c :: rest =>
      some (rest.foldl (fun best q => if q.distance < best.distance then q else best) c)

/-- Modelled from the spec: closest curve candidate (`getClosestCurve`, not
under `src/`). -/
def getClosestCurve : List SnappedCurve → Option SnappedCurve :=
  getClosestSL

/-- All unordered pairs of a list, in scan order. -/
def listPairs : List SnappedLine → List (SnappedLine × SnappedLine)
  | [] => []
  | l :: rest => rest.map (fun m => (l, m)) ++ listPairs rest

/-- All cross pairs of two lists, in scan order. -/
def listPairsAcross (l1 l2 : List SnappedLine) : List (SnappedLine × SnappedLine) :=
  match l1 with
  | [] => []
  | l :: rest => l2.map (fun m => (l, m)) ++ listPairsAcross rest l2

/-- Keep the closest (by primary distance) intersection from a pair list. -/
def bestIntersectionOf (ps : List (SnappedLine × SnappedLine)) : Option SnappedPoint :=
  ps.foldl
    (fun acc pr =>
      match SnappedLine.intersect pr.1 pr.2 with
      | none => acc
      | some sp =>
          match acc with
          | none => some sp
          | some best => if sp.distance < best.distance then some sp else some best)
    none

/-- Modelled from the spec: closest intersection of two lines of one family
(`getClosestIntersectionSL`, not under `src/`). -/
def getClosestIntersectionSL (l : List SnappedLine) : Option SnappedPoint :=
  bestIntersectionOf (listPairs l)

/-- Modelled from the spec: closest intersection of a line of one family with
a line of another (`getClosestIntersectionSL` on two lists, not under
`src/`). -/
def getClosestIntersectionSL2 (l1 l2 : List SnappedLine) : Option SnappedPoint :=
  bestIntersectionOf (listPairsAcross l1 l2)

/-- Modelled from the spec: closest intersection among curves near the query
point (`getClosestIntersectionCS`, not under `src/`); curves intersect like
lines here.  The query point and the desktop-to-document transform of the
original signature do not influence the modelled candidate record. -/
def getClosestIntersectionCS (curves : List SnappedCurve) (_p : Pt) : Option SnappedPoint :=
  bestIntersectionOf (listPairs curves)

/-- The per-query candidate container (`SnappedConstraints`): independent
ordered sequences of raw candidates gathered in one query. -/
structure SnappedConstraints where
  points : List SnappedPoint
  lines : List SnappedLine
  gridLines : List SnappedLine
  guideLines : List SnappedLine
  curves : List SnappedCurve
deriving Repr

/-- The cleared container a query starts from. -/
def SnappedConstraints.empty : SnappedConstraints :=
  { points := [], lines := [], gridLines := [], guideLines := [], curves := [] }

/-- Pure aggregation of two candidate containers (providers only append). -/
def SnappedConstraints.append (a b : SnappedConstraints) : SnappedConstraints :=
  { points := a.points ++ b.points
    lines := a.lines ++ b.lines
    gridLines := a.gridLines ++ b.gridLines
    guideLines := a.guideLines ++ b.guideLines
    curves := a.curves ++ b.curves }

/-- Modelled from the spec: a 1-D constraint, a point + direction pair
(`Inkscape::Snapper::ConstraintLine`, not under `src/`); the point is
optional and the line may be re-pointed while keeping its direction. -/
structure ConstraintLine where
  hasPoint : Bool
  point : Pt
  direction : Pt
deriving DecidableEq, Repr

/-- A constraint from a point and a direction. -/
def ConstraintLine.throughPoint (p d : Pt) : ConstraintLine :=
  { hasPoint := true, point := p, direction := d }

/-- A direction-only constraint (through the origin). -/
def ConstraintLine.ofDirection (d : Pt) : ConstraintLine :=
  { hasPoint := false, point := ⟨0, 0⟩, direction := d }

/-- `ConstraintLine::setPoint`: re-point the line, keeping its direction. -/
def ConstraintLine.setPoint (cl : ConstraintLine) (p : Pt) : ConstraintLine :=
  { cl with hasPoint := true, point := p }

/-- Modelled from the spec: orthogonal projection of a point onto the
constraint line (`ConstraintLine::projection`, not under `src/`).  A
degenerate zero direction leaves the point unchanged. -/
def ConstraintLine.projection (cl : ConstraintLine) (p : Pt) : Pt :=
  let q := if cl.hasPoint then cl.point else ⟨0, 0⟩
  let dd := Pt.dot cl.direction cl.direction
  if dd = 0 then p
  else q + Pt.smul (Pt.dot (p - q) cl.direction / dd) cl.direction

/-- Modelled from the spec: the snap target provider capability contract
(`Inkscape::Snapper`, not under `src/`): a cheap "might I possibly snap"
check plus the candidates it would append for a free or a constrained query
at a given query point.  Arguments of the original signatures that only
parametrize the provider's internal geometric search (point category, source
kind, first-point flag, bounding-box hint, ignore lists) are folded into the
abstract behavior. -/
structure Snapper where
  mightSnap : Bool
  runFree : Pt → SnappedConstraints
  runConstrained : Pt → ConstraintLine → SnappedConstraints

/-- Modelled from the spec: the object-geometry provider, which additionally
has a guide capability (`Inkscape::ObjectSnapper`, not under `src/`). -/
structure ObjectSnapper extends Snapper where
  guidesMightSnap : Bool
  runGuideFree : Pt → Pt → SnappedConstraints

/-- One active grid of the named view: its origin and its own snapper. -/
structure Grid where
  origin : Pt
  snapper : Snapper

/-- The snapping preferences read during a query (`Inkscape::SnapPreferences`). -/
structure SnapPreferences where
  snapEnabledGlobally : Bool
  snapPostponedGlobally : Bool
  snapToGrids : Bool
  snapToGuides : Bool
  snapIntersectionCS : Bool
  snapIntersectionGG : Bool
deriving DecidableEq, Repr

/-- The orchestrator state a query session reads (`SnapManager` plus the
desktop / named-view collaborators it consults). -/
structure SnapManager where
  prefs : SnapPreferences
  gridsEnabled : Bool
  grids : List Grid
  guide : Snapper
  object : ObjectSnapper

/-- `SnapManager::getGridSnappers`: one snapper per grid, but only when the
desktop displays grids and grid snapping is enabled. -/
def SnapManager.getGridSnappers (sm : SnapManager) : List Snapper :=
  if sm.gridsEnabled && sm.prefs.snapToGrids then sm.grids.map Grid.snapper else []

/-- `SnapManager::getSnappers`: guide and object snappers, with the grid
snappers spliced in front. -/
def SnapManager.getSnappers (sm : SnapManager) : List Snapper :=
  sm.getGridSnappers ++ [sm.guide, sm.object.toSnapper]

/-- `SnapManager::someSnapperMightSnap`: false when globally disabled or
postponed, else true iff some snapper reports it might snap. -/
def SnapManager.someSnapperMightSnap (sm : SnapManager) : Bool :=
  if !sm.prefs.snapEnabledGlobally || sm.prefs.snapPostponedGlobally then false
  else (sm.getSnappers).any Snapper.mightSnap

/-- The "not snapped" sentinel result built at the early returns and at the
head of the selection loop: echoes the query point, target kind undefined,
infinite distance. -/
def sentinelPoint (p : Pt) (src : SnapSourceType) : SnappedPoint :=
  { point := p
    source := src
    target := .undefined
    distance := NR_HUGE
    tolerance := 0
    alwaysSnap := false
    atIntersection := false
    secondDistance := NR_HUGE
    secondTolerance := 0
    secondAlwaysSnap := false
    transformation := ⟨0, 0⟩
    pointerDistance := NR_HUGE }

/-- Helper turning the C++ "if found, push_back" pattern into a list piece. -/
def optList {α : Type} : Option α → List α
  | none => []
  | some a => [a]

/-- The candidate list built by `SnapManager::findBestSnap` before its
selection loop, in source order: closest point, closest curve, closest
curve intersection (preference-gated), closest grid line, closest guide
line; then — only for unconstrained queries — closest grid-grid
intersection, closest guide-guide intersection and, preference-gated,
closest grid-guide intersection. -/
def collectCandidates (prefs : SnapPreferences) (p : Pt) (src : SnapSourceType)
    (sc : SnappedConstraints) (constrained : Bool) : List SnappedPoint :=
  let l1 := optList (getClosestSP sc.points)
  let l2 := l1 ++ optList ((getClosestCurve sc.curves).map SnappedLine.toSnappedPoint)
  let l3 := l2 ++
    (if prefs.snapIntersectionCS then
      optList ((getClosestIntersectionCS sc.curves p).map fun q => { q with source := src })
    else [])
  let l4 := l3 ++ optList ((getClosestSL sc.gridLines).map SnappedLine.toSnappedPoint)
  let l5 := l4 ++ optList ((getClosestSL sc.guideLines).map SnappedLine.toSnappedPoint)
  if !constrained then
    let l6 := l5 ++ optList ((getClosestIntersectionSL sc.gridLines).map
      fun q => { q with source := src, target := .gridIntersection })
    let l7 := l6 ++ optList ((getClosestIntersectionSL sc.guideLines).map
      fun q => { q with source := src, target := .guideIntersection })
    let l8 := l7 ++
      (if prefs.snapIntersectionGG then
        optList ((getClosestIntersectionSL2 sc.gridLines sc.guideLines).map
          fun q => { q with source := src, target := .gridGuideIntersection })
      else [])
    l8
  else
    l5

/-- The selection loop of `SnapManager::findBestSnap`: a candidate becomes
the new best when it is within its own tolerance and is either the first
list element or a better snap than the current best. -/
def selectBestLoop (first : Bool) (best : SnappedPoint) : List SnappedPoint → SnappedPoint
  | [] => best
  | c :: rest =>
      let best' :=
        if c.distance ≤ c.tolerance && (first || best.isOtherSnapBetter c false)
        then c else best
      selectBestLoop false best' rest

/-- `SnapManager::findBestSnap`: collect the per-category closest candidates
(and, if unconstrained, intersections), then scan them in list order for the
best snap; the scan starts from the sentinel echoing the query point (with
source kind undefined, per the source).  The snap-indicator side call is an
external fire-and-forget collaborator and is not part of the returned
value. -/
def findBestSnap (prefs : SnapPreferences) (p : Pt) (src : SnapSourceType)
    (sc : SnappedConstraints) (constrained : Bool) : SnappedPoint :=
  selectBestLoop true (sentinelPoint p .undefined)
    (collectCandidates prefs p src sc constrained)

/-- The fan-out of `SnapManager::freeSnap`: every active snapper appends its
free-snap candidates for the query point. -/
def collectFree (sm : SnapManager) (p : Pt) : SnappedConstraints :=
  (sm.getSnappers).foldl (fun sc s => sc.append (s.runFree p)) SnappedConstraints.empty

/-- The fan-out of `SnapManager::constrainedSnap`: every active snapper
appends its constrained-snap candidates for the (already projected) query
point and the constraint. -/
def collectConstrained (sm : SnapManager) (pp : Pt) (cl : ConstraintLine) :
    SnappedConstraints :=
  (sm.getSnappers).foldl (fun sc s => sc.append (s.runConstrained pp cl))
    SnappedConstraints.empty

/-- `SnapManager::freeSnap`: sentinel when no snapper might snap, else fan
out to every snapper at the query point and select the best candidate,
unconstrained. -/
def SnapManager.freeSnap (sm : SnapManager) (p : Pt) (src : SnapSourceType) : SnappedPoint :=
  if !sm.someSnapperMightSnap then sentinelPoint p src
  else findBestSnap sm.prefs p src (collectFree sm p) false

/-- `SnapManager::constrainedSnap`: sentinel when no snapper might snap, else
project the query point onto the constraint line, fan out to every snapper at
the projection, and select the best candidate relative to the original,
unprojected point, constrained. -/
def SnapManager.constrainedSnap (sm : SnapManager) (p : Pt) (src : SnapSourceType)
    (cl : ConstraintLine) : SnappedPoint :=
  if !sm.someSnapperMightSnap then sentinelPoint p src
  else
    let pp := cl.projection p
    findBestSnap sm.prefs p src (collectConstrained sm pp cl) true

/-- The per-grid body of `SnapManager::multipleOfGridPitch`: when this grid's
snapper might snap, free-snap the origin-compensated offset against it alone,
find the best snap (grid-line intersections included), and keep it when it is
snapped and strictly closer than the best found so far. -/
def mgpStep (prefs : SnapPreferences) (t : Pt) (acc : Bool × Pt × ℚ) (g : Grid) :
    Bool × Pt × ℚ :=
  if g.snapper.mightSnap then
    let tOffset := t + g.origin
    let s := findBestSnap prefs tOffset .undefined (g.snapper.runFree tOffset) false
    if s.getSnapped && s.distance < acc.2.2 then (true, s.point - g.origin, s.distance)
    else acc
  else acc

/-- `SnapManager::multipleOfGridPitch`: snap a proposed offset to the nearest
multiple of a grid pitch by free-snapping the offset (compensated for the
grid origin) against each grid's snapper; return the offset unchanged when
global snapping is off, grids are not displayed, or no grid succeeded. -/
def SnapManager.multipleOfGridPitch (sm : SnapManager) (t : Pt) : Pt :=
  if !sm.prefs.snapEnabledGlobally then t
  else if sm.gridsEnabled then
    let r := sm.grids.foldl (mgpStep sm.prefs t) (false, ⟨0, 0⟩, NR_HUGE)
    if r.1 then r.2.1 else t
  else t

/-- What one grid contributes to `multipleOfGridPitch`, viewed in isolation:
`none` when its snapper cannot snap or nothing was within tolerance, else the
origin-compensated snapped offset and its snap distance. -/
def gridOutcome (prefs : SnapPreferences) (t : Pt) (g : Grid) : Option (Pt × ℚ) :=
  if g.snapper.mightSnap then
    let s := findBestSnap prefs (t + g.origin) .undefined (g.snapper.runFree (t + g.origin))
      false
    if s.getSnapped then some (s.point - g.origin, s.distance) else none
  else none

/-- A guide line of the document (`SPGuide`): a point on the line and the
normal to the line. -/
structure SPGuide where
  pointOnLine : Pt
  normalToLine : Pt

/-- `Geom::rot90`: rotate a vector by 90 degrees. -/
def rot90 (p : Pt) : Pt := ⟨-p.y, p.x⟩

/-- `SnapManager::guideFreeSnap`: snap a guide point to nodes (object snapper
guide capability) and/or to other guides, in two degrees of freedom; the
by-reference point is overwritten only when a snap occurred.  Returns the
final value of the by-reference parameter `p`. -/
def SnapManager.guideFreeSnap (sm : SnapManager) (p : Pt) (guideNormal : Pt) : Pt :=
  if !sm.prefs.snapEnabledGlobally || sm.prefs.snapPostponedGlobally then p
  else if !(sm.object.guidesMightSnap || sm.prefs.snapToGuides) then p
  else
    let sc1 :=
      if sm.object.guidesMightSnap then sm.object.runGuideFree p guideNormal
      else SnappedConstraints.empty
    let sc2 :=
      if sm.prefs.snapToGuides then sm.guide.runFree p else SnappedConstraints.empty
    let s := findBestSnap sm.prefs p .guide (sc1.append sc2) false
    if s.getSnapped then s.point else p

/-- `SnapManager::guideConstrainedSnap`: snap a point on a guide along the
guide itself to object geometry and/or other guides; note that the object
snapper is gated by its general `ThisSnapperMightSnap`, not by its guide
capability.  Returns the final value of the by-reference parameter `p`. -/
def SnapManager.guideConstrainedSnap (sm : SnapManager) (p : Pt) (guideline : SPGuide) :
    Pt :=
  if !sm.prefs.snapEnabledGlobally || sm.prefs.snapPostponedGlobally then p
  else if !(sm.object.mightSnap || sm.prefs.snapToGuides) then p
  else
    let cl := ConstraintLine.throughPoint guideline.pointOnLine (rot90 guideline.normalToLine)
    let sc1 :=
      if sm.object.mightSnap then sm.object.runConstrained p cl
      else SnappedConstraints.empty
    let sc2 :=
      if sm.prefs.snapToGuides then sm.guide.runConstrained p cl
      else SnappedConstraints.empty
    let s := findBestSnap sm.prefs p .guide (sc1.append sc2) false
    if s.getSnapped then s.point else p

/-- `SnapManager::Transformation`: the four batch transform kinds. -/
inductive TransformKind where
  | translation
  | scale
  | stretch
  | skew
deriving DecidableEq, Repr

/-- `SnapManager::_transformPoint`: map an untransformed point to its
position under the proposed translation / scale / stretch / skew. -/
def _transformPoint (p : Pt × SnapSourceType) (ttype : TransformKind)
    (transformation origin : Pt) (dim : Dim2) (uniform : Bool) : Pt :=
  match ttype with
  | .translation => p.1 + transformation
  | .scale =>
      ⟨(p.1.x - origin.x) * transformation.x + origin.x,
       (p.1.y - origin.y) * transformation.y + origin.y⟩
  | .stretch =>
      let s : Pt :=
        if uniform then ⟨transformation.get dim, transformation.get dim⟩
        else (Pt.mk 1 1).setAt dim (transformation.get dim)
      ⟨(p.1.x - origin.x) * s.x + origin.x, (p.1.y - origin.y) * s.y + origin.y⟩
  | .skew =>
      let tdim := p.1.get dim + transformation.x * (p.1.get dim.other - origin.get dim.other)
      let tother := (p.1 - origin).get dim.other * transformation.y + origin.get dim.other
      ((Pt.mk 0 0).setAt dim tdim).setAt dim.other tother

/-- The dedicated per-point constraint derived inside `_snapTransformed` for
a constrained batch snap: radial line for uniform scale/stretch, axis line
through the point for non-uniform stretch, the caller constraint re-pointed
for translation, and the caller constraint unmodified otherwise (skew, and
also the unsupported non-uniform scale). -/
def dedicatedConstraint (cl : ConstraintLine) (ttype : TransformKind) (uniform : Bool)
    (dim : Dim2) (origin op : Pt) : ConstraintLine :=
  if (ttype = .scale || ttype = .stretch) && uniform then
    ConstraintLine.throughPoint origin (op - origin)
  else if ttype = .stretch then ConstraintLine.throughPoint op (componentVector dim)
  else if ttype = .translation then cl.setPoint op
  else cl

/-- The number of `g_warning` diagnostics emitted by one iteration of the
`_snapTransformed` loop: one for the unsupported non-uniform constrained
scale, zero otherwise. -/
def perPointWarn (constrained : Bool) (ttype : TransformKind) (uniform : Bool) : ℕ :=
  if constrained && ttype = .scale && !uniform then 1 else 0

/-- The snap attempt made for one point of a batch inside `_snapTransformed`
(before the pointer distance is recorded): constrained snap along the
dedicated constraint when the batch is constrained; otherwise a point of an
unconstrained scale that is axis-aligned with the origin is constrained to
that axis, and every other point free-snaps.  `op` is the original point,
`tp` its transformed position. -/
def perPointSnap (sm : SnapManager) (constrained : Bool) (cl : ConstraintLine)
    (ttype : TransformKind) (uniform : Bool) (dim : Dim2) (origin : Pt)
    (op tp : Pt) (src : SnapSourceType) : SnappedPoint :=
  let b := op - origin
  if constrained then
    sm.constrainedSnap tp src (dedicatedConstraint cl ttype uniform dim origin op)
  else
    let c1 := |b.x| < 1 / 1000000
    let c2 := |b.y| < 1 / 1000000
    if ttype = .scale && (c1 || c2) && !(c1 && c2) then
      let dir := if c1 then componentVector .Y else componentVector .X
      sm.constrainedSnap tp src (ConstraintLine.throughPoint origin dir)
    else sm.freeSnap tp src

/-- One axis of the scale recovery of `_snapTransformed`: an axis only
contributes when the point's offset from the origin is non-negligible in
that axis and the recovered ratio differs from the proposed scale beyond the
numeric epsilon; otherwise the sentinel is left in place. -/
def scaleRecoverAxis (a b t : ℚ) : ℚ :=
  if 1 / 1000000 < |b| then
    if 1 / 1000000000000 < abs (abs (a / b) - abs t) then a / b else NR_HUGE
  else NR_HUGE

/-- The mutable state threaded through the `_snapTransformed` loop: current
best transformation, its per-axis scale metric, the best snapped point, and
the number of diagnostics logged so far. -/
structure TxAcc where
  bestTransformation : Pt
  bestScaleMetric : Pt
  bestSnappedPoint : SnappedPoint
  warnings : ℕ
deriving DecidableEq, Repr

/-- One iteration of the `_snapTransformed` loop for original point `op`
with source tag `src`: log the non-uniform-constrained-scale diagnostic if
applicable, snap the transformed point, record the (squared) pointer
distance, and, when snapped, recover the transformation for this point and
fold it into the running best (per-axis with uniform collapse for scale,
via the weighted "is other snap better" rule otherwise).  The scale
branch compares `|scale_metric|` exactly where the source compares
doubles; concrete inputs instantiating it are drawn from the
exact-rounding regime described in the module header, where the two
comparisons agree. -/
def txStep (sm : SnapManager) (cl : ConstraintLine) (ttype : TransformKind)
    (t origin : Pt) (dim : Dim2) (uniform constrained : Bool) (pointer : Pt)
    (acc : TxAcc) (op : Pt) (src : SnapSourceType) : TxAcc :=
  let tp := _transformPoint (op, src) ttype t origin dim uniform
  let warnings := acc.warnings + perPointWarn constrained ttype uniform
  let sp0 := perPointSnap sm constrained cl ttype uniform dim origin op tp src
  let sp := { sp0 with pointerDistance := Pt.l2sq (pointer - op) }
  if sp.getSnapped then
    let a := sp.point - origin
    let b := op - origin
    match ttype with
    | .translation =>
        let result := sp.point - op
        if acc.bestSnappedPoint.isOtherSnapBetter sp true then
          { bestTransformation := result, bestScaleMetric := acc.bestScaleMetric
            bestSnappedPoint := sp, warnings := warnings }
        else { acc with warnings := warnings }
    | .scale =>
        let result := Pt.mk (scaleRecoverAxis a.x b.x t.x) (scaleRecoverAxis a.y b.y t.y)
        let scaleMetric := result - t
        let upd0 := |scaleMetric.x| < |acc.bestScaleMetric.x|
        let upd1 := |scaleMetric.y| < |acc.bestScaleMetric.y|
        let bt := Pt.mk (if upd0 then result.x else acc.bestTransformation.x)
                        (if upd1 then result.y else acc.bestTransformation.y)
        let bm := Pt.mk (if upd0 then |scaleMetric.x| else acc.bestScaleMetric.x)
                        (if upd1 then |scaleMetric.y| else acc.bestScaleMetric.y)
        let bsp := if upd0 || upd1 then sp else acc.bestSnappedPoint
        let btbm :=
          if uniform then
            if bm.x < bm.y then (Pt.mk bt.x bt.x, Pt.mk bm.x bm.x)
            else (Pt.mk bt.y bt.y, Pt.mk bm.y bm.y)
          else (bt, bm)
        { bestTransformation := btbm.1, bestScaleMetric := btbm.2
          bestSnappedPoint := bsp, warnings := warnings }
    | .stretch =>
        let result :=
          if 1 / 1000000 < |b.get dim| then
            let r := a.get dim / b.get dim
            ((Pt.mk NR_HUGE NR_HUGE).setAt dim r).setAt dim.other (if uniform then r else 1)
          else if uniform && 1 / 1000000 < |b.get dim.other| then
            let r := a.get dim.other / b.get dim.other
            ((Pt.mk NR_HUGE NR_HUGE).setAt dim.other r).setAt dim r
          else Pt.mk NR_HUGE NR_HUGE
        let sp' := { sp with distance := |result.get dim - t.get dim|
                             secondDistance := NR_HUGE }
        if acc.bestSnappedPoint.isOtherSnapBetter sp' true then
          { bestTransformation := result, bestScaleMetric := acc.bestScaleMetric
            bestSnappedPoint := sp', warnings := warnings }
        else { acc with warnings := warnings }
    | .skew =>
        let result := Pt.mk
          ((sp.point.get dim - op.get dim) / (op.get dim.other - origin.get dim.other))
          t.y
        let sp' := { sp with distance := |result.x - t.x|, secondDistance := NR_HUGE }
        if acc.bestSnappedPoint.isOtherSnapBetter sp' true then
          { bestTransformation := result, bestScaleMetric := acc.bestScaleMetric
            bestSnappedPoint := sp', warnings := warnings }
        else { acc with warnings := warnings }
  else { acc with warnings := warnings }

/-- The `_snapTransformed` loop over all batch points. -/
def txLoop (sm : SnapManager) (cl : ConstraintLine) (ttype : TransformKind)
    (t origin : Pt) (dim : Dim2) (uniform constrained : Bool) (pointer : Pt) :
    List (Pt × SnapSourceType) → TxAcc → TxAcc
  | [], acc => acc
  | (op, src) :: rest, acc =>
      txLoop sm cl ttype t origin dim uniform constrained pointer rest
        (txStep sm cl ttype t origin dim uniform constrained pointer acc op src)

/-- The tail of `_snapTransformed`: for scale, replace any axis still at the
sentinel by the other axis's value (when uniform and that value is finite)
or by the originally proposed value, sequentially in axis order; then report
the best metric as the result's snap distance (clamped to the sentinel when
it is not genuinely small). -/
def txFixup (ttype : TransformKind) (uniform : Bool) (t : Pt) (acc : TxAcc) :
    SnappedPoint :=
  if ttype = .scale then
    let bt0 :=
      if acc.bestTransformation.x = NR_HUGE then
        if uniform && acc.bestTransformation.y < NR_HUGE then acc.bestTransformation.y
        else t.x
      else acc.bestTransformation.x
    let bt1 :=
      if acc.bestTransformation.y = NR_HUGE then
        if uniform && bt0 < NR_HUGE then bt0 else t.y
      else acc.bestTransformation.y
    let bm := min acc.bestScaleMetric.x acc.bestScaleMetric.y
    { acc.bestSnappedPoint with
        transformation := ⟨bt0, bt1⟩
        distance := if bm < 1000000 then bm else NR_HUGE }
  else
    let bm := acc.bestSnappedPoint.distance
    { acc.bestSnappedPoint with
        transformation := acc.bestTransformation
        distance := if bm < 1000000 then bm else NR_HUGE }

/-- The value `_snapTransformed` produces, together with the number of
`g_warning` diagnostics it emitted on its channel. -/
structure SnapTxResult where
  result : SnappedPoint
  warnings : ℕ
deriving DecidableEq, Repr

/-- The initial accumulator of the `_snapTransformed` loop: best
transformation = the proposal, per-axis scale metric at the sentinel, best
snapped point default-constructed, nothing logged. -/
def txInit (t : Pt) : TxAcc :=
  { bestTransformation := t, bestScaleMetric := ⟨NR_HUGE, NR_HUGE⟩
    bestSnappedPoint := SnappedPoint.defaultPoint, warnings := 0 }

/-- `SnapManager::_snapTransformed`: transform each point, snap it (free or
constrained, with a per-point dedicated constraint where required), recover
the per-point transformation, and track the best transformation over the
whole batch; abort with the default "not snapped" result when no snapper
might snap.  The bounding box hulling the transformed points and the
first-point flag only parametrize the abstracted providers. -/
def _snapTransformed (sm : SnapManager) (points : List (Pt × SnapSourceType))
    (pointer : Pt) (constrained : Bool) (cl : ConstraintLine) (ttype : TransformKind)
    (t origin : Pt) (dim : Dim2) (uniform : Bool) : SnapTxResult :=
  if !sm.someSnapperMightSnap then ⟨SnappedPoint.defaultPoint, 0⟩
  else
    let accF := txLoop sm cl ttype t origin dim uniform constrained pointer points (txInit t)
    ⟨txFixup ttype uniform t accF, accF.warnings⟩

/-- `SnapManager::freeSnapTranslation` (the snap-source display side call is
an external indicator collaborator and does not affect the result). -/
def SnapManager.freeSnapTranslation (sm : SnapManager)
    (p : List (Pt × SnapSourceType)) (pointer tr : Pt) : SnapTxResult :=
  _snapTransformed sm p pointer false (ConstraintLine.ofDirection ⟨0, 0⟩) .translation tr
    ⟨0, 0⟩ .X false

/-- `SnapManager::constrainedSnapTranslation`. -/
def SnapManager.constrainedSnapTranslation (sm : SnapManager)
    (p : List (Pt × SnapSourceType)) (pointer : Pt) (cl : ConstraintLine) (tr : Pt) :
    SnapTxResult :=
  _snapTransformed sm p pointer true cl .translation tr ⟨0, 0⟩ .X false

/-- `SnapManager::freeSnapScale`. -/
def SnapManager.freeSnapScale (sm : SnapManager) (p : List (Pt × SnapSourceType))
    (pointer s o : Pt) : SnapTxResult :=
  _snapTransformed sm p pointer false (ConstraintLine.ofDirection ⟨0, 0⟩) .scale s o .X false

/-- `SnapManager::constrainedSnapScale`: constrained scaling is always
requested as uniform by this wrapper. -/
def SnapManager.constrainedSnapScale (sm : SnapManager) (p : List (Pt × SnapSourceType))
    (pointer s o : Pt) : SnapTxResult :=
  _snapTransformed sm p pointer true (ConstraintLine.ofDirection ⟨0, 0⟩) .scale s o .X true

/-- `SnapManager::constrainedSnapStretch`. -/
def SnapManager.constrainedSnapStretch (sm : SnapManager)
    (p : List (Pt × SnapSourceType)) (pointer : Pt) (s : ℚ) (o : Pt) (d : Dim2)
    (u : Bool) : SnapTxResult :=
  _snapTransformed sm p pointer true (ConstraintLine.ofDirection ⟨0, 0⟩) .stretch ⟨s, s⟩ o d u

/-- `SnapManager::constrainedSnapSkew`. -/
def SnapManager.constrainedSnapSkew (sm : SnapManager)
    (p : List (Pt × SnapSourceType)) (pointer : Pt) (cl : ConstraintLine) (s o : Pt)
    (d : Dim2) : SnapTxResult :=
  _snapTransformed sm p pointer true cl .skew s o d false

/-! ### The selection policy as the specification words it

These two definitions transcribe §4.2 step 5 of the specification — "select
the first candidate (in arbitrary list order) whose distance is within its
own tolerance as an initial best; then scan the remainder, replacing best
whenever a later candidate is a better snap than the current best" — to be
compared with the loop actually implemented in `findBestSnap`. -/

/-- Scan the remainder of the candidate list, replacing the current best
whenever a later within-tolerance candidate is a better snap. -/
def specScanRest (best : SnappedPoint) : List SnappedPoint → SnappedPoint
  | [] => best
  | c :: rest =>
      specScanRest
        (if c.distance ≤ c.tolerance && best.isOtherSnapBetter c false then c else best) rest

/-- Take the first candidate within its own tolerance as the initial best,
then scan the remainder; the sentinel when nothing qualifies. -/
def specSelectBest (p : Pt) : List SnappedPoint → SnappedPoint
  | [] => sentinelPoint p .undefined
  | c :: rest =>
      if c.distance ≤ c.tolerance then specScanRest c rest else specSelectBest p rest

/-- The first five candidate-list pieces of `findBestSnap`, built for every
query: closest snapped point, closest snapped curve, closest curve-curve
intersection (preference-gated), closest grid line, closest guide line. -/
def baseCandidates (prefs : SnapPreferences) (p : Pt) (src : SnapSourceType)
    (sc : SnappedConstraints) : List SnappedPoint :=
  optList (getClosestSP sc.points)
    ++ optList ((getClosestCurve sc.curves).map SnappedLine.toSnappedPoint)
    ++ (if prefs.snapIntersectionCS then
          optList ((getClosestIntersectionCS sc.curves p).map fun q => { q with source := src })
        else [])
    ++ optList ((getClosestSL sc.gridLines).map SnappedLine.toSnappedPoint)
    ++ optList ((getClosestSL sc.guideLines).map SnappedLine.toSnappedPoint)

/-- The candidate-list pieces of `findBestSnap` reserved for unconstrained
queries: closest grid-grid intersection, closest guide-guide intersection,
and — only when the grid-guide intersection preference is enabled — closest
grid-guide intersection. -/
def intersectionCandidates (prefs : SnapPreferences) (src : SnapSourceType)
    (sc : SnappedConstraints) : List SnappedPoint :=
  optList ((getClosestIntersectionSL sc.gridLines).map
      fun q => { q with source := src, target := .gridIntersection })
    ++ optList ((getClosestIntersectionSL sc.guideLines).map
      fun q => { q with source := src, target := .guideIntersection })
    ++ (if prefs.snapIntersectionGG then
          optList ((getClosestIntersectionSL2 sc.gridLines sc.guideLines).map
            fun q => { q with source := src, target := .gridGuideIntersection })
        else [])

/-! ### Helper lemmas about the selection loop -/

/-- The selection loop returns its running best or a within-tolerance list
element. -/
theorem selectBestLoop_mem :
    ∀ (l : List SnappedPoint) (first : Bool) (best : SnappedPoint),
      selectBestLoop first best l = best ∨
        (selectBestLoop first best l ∈ l ∧
          (selectBestLoop first best l).distance ≤ (selectBestLoop first best l).tolerance)
  | [], _, _ => Or.inl rfl
  | c :: rest, first, best => by
      simp only [selectBestLoop]
      split
      · rename_i h
        rcases selectBestLoop_mem rest false c with h1 | h1
        · rw [h1]
          exact Or.inr ⟨List.mem_cons_self c rest,
            of_decide_eq_true (Bool.and_elim_left h)⟩
        · exact Or.inr ⟨List.mem_cons_of_mem c h1.1, h1.2⟩
      · rcases selectBestLoop_mem rest false best with h1 | h1
        · exact Or.inl h1
        · exact Or.inr ⟨List.mem_cons_of_mem c h1.1, h1.2⟩

/-- With `first` off, the code loop is literally the spec's remainder scan. -/
theorem selectBestLoop_false_eq_specScanRest :
    ∀ (l : List SnappedPoint) (best : SnappedPoint),
      selectBestLoop false best l = specScanRest best l
  | [], _ => rfl
  | _ :: rest, best => by
      simp only [selectBestLoop, specScanRest, Bool.false_or]
      exact selectBestLoop_false_eq_specScanRest rest _

/-- The sentinel judges any candidate with finite distance a better snap. -/
theorem sentinel_isOtherSnapBetter (p : Pt) (src : SnapSourceType) (c : SnappedPoint)
    (h : c.distance < NR_HUGE) :
    (sentinelPoint p src).isOtherSnapBetter c false = true := by
  cases h1 : c.alwaysSnap with
  | true => simp [SnappedPoint.isOtherSnapBetter, sentinelPoint, h1]
  | false =>
    cases h2 : c.atIntersection with
    | true => simp [SnappedPoint.isOtherSnapBetter, sentinelPoint, h1, h2]
    | false => simp [SnappedPoint.isOtherSnapBetter, sentinelPoint, h1, h2, h]

/-- The code loop started from the sentinel computes exactly the selection
the specification describes, provided every candidate's tolerance is a
finite preference value. -/
theorem selectBestLoop_eq_specSelectBest (p : Pt) :
    ∀ (l : List SnappedPoint), (∀ c ∈ l, c.tolerance < NR_HUGE) → ∀ (first : Bool),
      selectBestLoop first (sentinelPoint p .undefined) l = specSelectBest p l
  | [], _, _ => rfl
  | c :: rest, h, first => by
      simp only [selectBestLoop, specSelectBest]
      by_cases hc : c.distance ≤ c.tolerance
      · have hlt : c.distance < NR_HUGE :=
          lt_of_le_of_lt hc (h c (List.mem_cons_self c rest))
        have hbetter := sentinel_isOtherSnapBetter p .undefined c hlt
        rw [if_pos hc]
        have hcond : (decide (c.distance ≤ c.tolerance) &&
            (first || (sentinelPoint p .undefined).isOtherSnapBetter c false)) = true := by
          rw [hbetter]
          simp [hc]
        rw [if_pos hcond]
        exact selectBestLoop_false_eq_specScanRest rest c
      · rw [if_neg hc]
        have hcond : ¬((decide (c.distance ≤ c.tolerance) &&
            (first || (sentinelPoint p .undefined).isOtherSnapBetter c false)) = true) := by
          simp [hc]
        rw [if_neg hcond]
        exact selectBestLoop_eq_specSelectBest p rest
          (fun d hd => h d (List.mem_cons_of_mem c hd)) false

/-- The sentinel result is not snapped. -/
theorem sentinel_getSnapped (p : Pt) (src : SnapSourceType) :
    (sentinelPoint p src).getSnapped = false := by
  simp [SnappedPoint.getSnapped, sentinelPoint]

/-! ### Concrete fixtures used by the witnesses and counterexamples -/

namespace Fx

/-- A point candidate with the given position, distance and tolerance. -/
def mkCand (p : Pt) (d tol : ℚ) : SnappedPoint :=
  { point := p, source := .node, target := .node, distance := d, tolerance := tol,
    alwaysSnap := false, atIntersection := false, secondDistance := NR_HUGE,
    secondTolerance := 0, secondAlwaysSnap := false, transformation := ⟨0, 0⟩,
    pointerDistance := NR_HUGE }

/-- Preferences with snapping globally on and every extra toggle off. -/
def prefsOn : SnapPreferences :=
  { snapEnabledGlobally := true, snapPostponedGlobally := false, snapToGrids := false,
    snapToGuides := false, snapIntersectionCS := false, snapIntersectionGG := false }

/-- Preferences with snapping globally disabled. -/
def prefsOff : SnapPreferences := { prefsOn with snapEnabledGlobally := false }

/-- A snapper that can never snap and contributes nothing. -/
def noSnapper : Snapper :=
  { mightSnap := false, runFree := fun _ => SnappedConstraints.empty,
    runConstrained := fun _ _ => SnappedConstraints.empty }

/-- An object snapper that always offers the single point candidate `c`
(guide capability off). -/
def mockObject (c : SnappedPoint) : ObjectSnapper :=
  { mightSnap := true,
    runFree := fun _ => { SnappedConstraints.empty with points := [c] },
    runConstrained := fun _ _ => { SnappedConstraints.empty with points := [c] },
    guidesMightSnap := false,
    runGuideFree := fun _ _ => SnappedConstraints.empty }

/-- An object snapper that can snap but never finds anything. -/
def emptyObject : ObjectSnapper :=
  { mightSnap := true,
    runFree := fun _ => SnappedConstraints.empty,
    runConstrained := fun _ _ => SnappedConstraints.empty,
    guidesMightSnap := false,
    runGuideFree := fun _ _ => SnappedConstraints.empty }

/-- A manager with no grids or guides whose object snapper offers `c`. -/
def smMock (c : SnappedPoint) : SnapManager :=
  { prefs := prefsOn, gridsEnabled := false, grids := [], guide := noSnapper,
    object := mockObject c }

/-- A manager whose providers can snap but find nothing. -/
def smEmpty : SnapManager :=
  { prefs := prefsOn, gridsEnabled := false, grids := [], guide := noSnapper,
    object := emptyObject }

/-- A manager with snapping globally disabled. -/
def smOff : SnapManager := { smMock (mkCand ⟨3, 6⟩ 0 1) with prefs := prefsOff }

/-- A vertical guide line at x = 20 (its snap metrics as a guide snapper would
report them for the query point (21,49)). -/
def gl1 : SnappedLine :=
  { point := ⟨20, 49⟩, distance := 1, tolerance := 5, alwaysSnap := false,
    source := .node, target := .guideLine, linePoint := ⟨20, 0⟩, lineDir := ⟨0, 1⟩ }

/-- A horizontal guide line at y = 50. -/
def gl2 : SnappedLine :=
  { point := ⟨21, 50⟩, distance := 1, tolerance := 5, alwaysSnap := false,
    source := .node, target := .guideLine, linePoint := ⟨0, 50⟩, lineDir := ⟨1, 0⟩ }

/-- A candidate container holding the two guide lines. -/
def scB : SnappedConstraints := { SnappedConstraints.empty with guideLines := [gl1, gl2] }

/-- A non-uniform constrained batch scale: proposed scale (2,3) of the single
point (1,1) about the origin, against a provider offering a candidate at
(3,6) (which recovers the scale (3,6)). -/
def runC6 : SnapTxResult :=
  _snapTransformed (smMock (mkCand ⟨3, 6⟩ 0 1)) [(⟨1, 1⟩, .node)] ⟨0, 0⟩ true
    (ConstraintLine.ofDirection ⟨0, 0⟩) .scale ⟨2, 3⟩ ⟨0, 0⟩ .X false

/-- A uniform constrained batch scale: proposed scale (256,384) of the
single point (1,1) about the origin, against a provider whose candidate
(256,384) is exactly the proposed image of the point, so no axis recovers
a finite factor.  The magnitudes are chosen so the corresponding double
trace in the source is exact: 256 and 384 are multiples of 128, the ulp
of 1e18, so `NR_HUGE - 256 = 999999999999999744` and `NR_HUGE - 384` are
exactly representable doubles strictly below `NR_HUGE`, the ratios
256/1 and 384/1 are exact, and every comparison on the trace (the
per-axis update `|NR_HUGE - t| < NR_HUGE`, the uniform-collapse
comparison of the two metrics, the fixup equality with `NR_HUGE`, and
the final `< 1e6` clamp) decides identically in doubles and in ℚ. -/
def runC7 : SnapTxResult :=
  _snapTransformed (smMock (mkCand ⟨256, 384⟩ 0 1)) [(⟨1, 1⟩, .node)] ⟨0, 0⟩ true
    (ConstraintLine.ofDirection ⟨0, 0⟩) .scale ⟨256, 384⟩ ⟨0, 0⟩ .X true

end Fx

/-! ### Claim theorems -/

/-- C1: for every query resolved through `findBestSnap`, the returned result
(one per query — the selection is a total function) has a primary snap
distance that is either the sentinel infinite value — then the result is the
not-snapped sentinel echoing the input point — or a finite value no larger
than the tolerance carried by the winning candidate.  The hypothesis records
that every candidate's tolerance is a finite preference value (strictly
below the sentinel). -/
theorem findBestSnap_sentinel_or_within (prefs : SnapPreferences) (p : Pt)
    (src : SnapSourceType) (sc : SnappedConstraints) (constrained : Bool)
    (h : ∀ c ∈ collectCandidates prefs p src sc constrained, c.tolerance < NR_HUGE) :
    (findBestSnap prefs p src sc constrained = sentinelPoint p .undefined ∧
      (findBestSnap prefs p src sc constrained).distance = NR_HUGE ∧
      (findBestSnap prefs p src sc constrained).point = p ∧
      (findBestSnap prefs p src sc constrained).getSnapped = false) ∨
    ((findBestSnap prefs p src sc constrained).distance ≤
        (findBestSnap prefs p src sc constrained).tolerance ∧
      (findBestSnap prefs p src sc constrained).distance < NR_HUGE ∧
      (findBestSnap prefs p src sc constrained).getSnapped = true) := by
  unfold findBestSnap
  rcases selectBestLoop_mem (collectCandidates prefs p src sc constrained) true
      (sentinelPoint p .undefined) with h1 | h1
  · left
    refine ⟨h1, ?_, ?_, ?_⟩ <;> rw [h1]
    · rfl
    · rfl
    · exact sentinel_getSnapped p .undefined
  · right
    have htol := h _ h1.1
    have hdlt : (selectBestLoop true (sentinelPoint p .undefined)
        (collectCandidates prefs p src sc constrained)).distance < NR_HUGE :=
      lt_of_le_of_lt h1.2 htol
    refine ⟨h1.2, hdlt, ?_⟩
    simp [SnappedPoint.getSnapped, hdlt, h1.2]

/-- C1 witness: two guide lines near the query point (21,49). -/
theorem findBestSnap_sentinel_or_within_witness :
    (∀ c ∈ collectCandidates Fx.prefsOn ⟨21, 49⟩ .node Fx.scB false,
        c.tolerance < NR_HUGE) ∧
    ((findBestSnap Fx.prefsOn ⟨21, 49⟩ .node Fx.scB false =
        sentinelPoint ⟨21, 49⟩ .undefined ∧
      (findBestSnap Fx.prefsOn ⟨21, 49⟩ .node Fx.scB false).distance = NR_HUGE ∧
      (findBestSnap Fx.prefsOn ⟨21, 49⟩ .node Fx.scB false).point = ⟨21, 49⟩ ∧
      (findBestSnap Fx.prefsOn ⟨21, 49⟩ .node Fx.scB false).getSnapped = false) ∨
    ((findBestSnap Fx.prefsOn ⟨21, 49⟩ .node Fx.scB false).distance ≤
        (findBestSnap Fx.prefsOn ⟨21, 49⟩ .node Fx.scB false).tolerance ∧
      (findBestSnap Fx.prefsOn ⟨21, 49⟩ .node Fx.scB false).distance < NR_HUGE ∧
      (findBestSnap Fx.prefsOn ⟨21, 49⟩ .node Fx.scB false).getSnapped = true)) :=
  ⟨by with_unfolding_all decide,
   findBestSnap_sentinel_or_within Fx.prefsOn ⟨21, 49⟩ .node Fx.scB false (by with_unfolding_all decide)⟩

/-- C2: `findBestSnap` selects the first candidate in list order whose
distance is within its own tolerance as the initial best, then scans the
remainder in list order — no sorting — replacing the best exactly when the
asymmetric pairwise "is other snap better" rule says so: the code loop
equals the spec-worded selection for every candidate list whose tolerances
are finite preference values. -/
theorem findBestSnap_eq_specSelectBest (prefs : SnapPreferences) (p : Pt)
    (src : SnapSourceType) (sc : SnappedConstraints) (constrained : Bool)
    (h : ∀ c ∈ collectCandidates prefs p src sc constrained, c.tolerance < NR_HUGE) :
    findBestSnap prefs p src sc constrained =
      specSelectBest p (collectCandidates prefs p src sc constrained) :=
  selectBestLoop_eq_specSelectBest p _ h true

/-- C2 witness: the loop and the spec-worded selection agree on the two-guide
query. -/
theorem findBestSnap_eq_specSelectBest_witness :
    findBestSnap Fx.prefsOn ⟨21, 49⟩ .node Fx.scB false =
      specSelectBest ⟨21, 49⟩ (collectCandidates Fx.prefsOn ⟨21, 49⟩ .node Fx.scB false) :=
  findBestSnap_eq_specSelectBest Fx.prefsOn ⟨21, 49⟩ .node Fx.scB false (by with_unfolding_all decide)

/-- C3: the candidate list of `findBestSnap` consists of the per-category
closest candidates plus — exactly when the query was not constrained — the
closest grid-grid intersection, the closest guide-guide intersection, and,
only when the grid-guide intersection preference is enabled, the closest
grid-guide intersection; a constrained query adds none of the three. -/
theorem collectCandidates_intersections_iff_unconstrained (prefs : SnapPreferences)
    (p : Pt) (src : SnapSourceType) (sc : SnappedConstraints) (constrained : Bool) :
    collectCandidates prefs p src sc constrained =
      baseCandidates prefs p src sc ++
        (if constrained then [] else intersectionCandidates prefs src sc) := by
  cases constrained <;>
    simp [collectCandidates, baseCandidates, intersectionCandidates, List.append_assoc]

/-- C4: `constrainedSnap` feeds every provider the projection of the input
point onto the constraint line — the candidate set handed to the selection
policy is exactly the one the providers produce at `cl.projection p` — while
the selection is run against the original, unprojected point `p`: the result
is either the sentinel echoing `p` (distances relative to `p`) or one of
those candidates. -/
theorem constrainedSnap_uses_projected_query (sm : SnapManager) (p : Pt)
    (src : SnapSourceType) (cl : ConstraintLine)
    (h : sm.someSnapperMightSnap = true) :
    sm.constrainedSnap p src cl =
      findBestSnap sm.prefs p src (collectConstrained sm (cl.projection p) cl) true ∧
    (sm.constrainedSnap p src cl = sentinelPoint p .undefined ∨
      sm.constrainedSnap p src cl ∈
        collectCandidates sm.prefs p src (collectConstrained sm (cl.projection p) cl)
          true) := by
  have h1 : sm.constrainedSnap p src cl =
      findBestSnap sm.prefs p src (collectConstrained sm (cl.projection p) cl) true := by
    simp [SnapManager.constrainedSnap, h]
  refine ⟨h1, ?_⟩
  rw [h1]
  unfold findBestSnap
  rcases selectBestLoop_mem
      (collectCandidates sm.prefs p src (collectConstrained sm (cl.projection p) cl) true)
      true (sentinelPoint p .undefined) with h2 | h2
  · exact Or.inl h2
  · exact Or.inr h2.1

/-- C4 witness: a horizontal constraint through the origin, so that the
projection of (3,4) is (3,0) ≠ (3,4). -/
theorem constrainedSnap_uses_projected_query_witness :
    ((Fx.smMock (Fx.mkCand ⟨5, 5⟩ 0 1)).constrainedSnap ⟨3, 4⟩ .node
        (ConstraintLine.throughPoint ⟨0, 0⟩ ⟨1, 0⟩) =
      findBestSnap (Fx.smMock (Fx.mkCand ⟨5, 5⟩ 0 1)).prefs ⟨3, 4⟩ .node
        (collectConstrained (Fx.smMock (Fx.mkCand ⟨5, 5⟩ 0 1))
          ((ConstraintLine.throughPoint ⟨0, 0⟩ ⟨1, 0⟩).projection ⟨3, 4⟩)
          (ConstraintLine.throughPoint ⟨0, 0⟩ ⟨1, 0⟩)) true ∧
    ((Fx.smMock (Fx.mkCand ⟨5, 5⟩ 0 1)).constrainedSnap ⟨3, 4⟩ .node
        (ConstraintLine.throughPoint ⟨0, 0⟩ ⟨1, 0⟩) =
          sentinelPoint ⟨3, 4⟩ .undefined ∨
      (Fx.smMock (Fx.mkCand ⟨5, 5⟩ 0 1)).constrainedSnap ⟨3, 4⟩ .node
        (ConstraintLine.throughPoint ⟨0, 0⟩ ⟨1, 0⟩) ∈
        collectCandidates (Fx.smMock (Fx.mkCand ⟨5, 5⟩ 0 1)).prefs ⟨3, 4⟩ .node
          (collectConstrained (Fx.smMock (Fx.mkCand ⟨5, 5⟩ 0 1))
            ((ConstraintLine.throughPoint ⟨0, 0⟩ ⟨1, 0⟩).projection ⟨3, 4⟩)
            (ConstraintLine.throughPoint ⟨0, 0⟩ ⟨1, 0⟩)) true)) :=
  constrainedSnap_uses_projected_query (Fx.smMock (Fx.mkCand ⟨5, 5⟩ 0 1)) ⟨3, 4⟩ .node
    (ConstraintLine.throughPoint ⟨0, 0⟩ ⟨1, 0⟩) (by with_unfolding_all decide)

/-- C5: when no snapper might snap — snapping globally disabled, snapping
postponed, or every provider's `mightSnap` false — `freeSnap` and
`constrainedSnap` return the not-snapped sentinel (target kind undefined,
infinite distance) echoing the input point.  The result is determined before
any provider behavior is consulted: the theorem holds for snappers with
arbitrary `runFree` / `runConstrained` behavior, whose candidates therefore
never influence the result. -/
theorem noProvider_returns_sentinel (sm : SnapManager) (p : Pt)
    (src : SnapSourceType) (cl : ConstraintLine)
    (h : sm.prefs.snapEnabledGlobally = false ∨ sm.prefs.snapPostponedGlobally = true ∨
         ∀ s ∈ sm.getSnappers, s.mightSnap = false) :
    sm.someSnapperMightSnap = false ∧
    sm.freeSnap p src = sentinelPoint p src ∧
    sm.constrainedSnap p src cl = sentinelPoint p src ∧
    (sentinelPoint p src).target = .undefined ∧
    (sentinelPoint p src).distance = NR_HUGE ∧
    (sentinelPoint p src).point = p ∧
    (sentinelPoint p src).getSnapped = false := by
  have hm : sm.someSnapperMightSnap = false := by
    unfold SnapManager.someSnapperMightSnap
    rcases h with h | h | h
    · simp [h]
    · simp [h]
    · by_cases he : sm.prefs.snapEnabledGlobally <;>
        by_cases hp : sm.prefs.snapPostponedGlobally <;>
        simp only [he, hp, Bool.not_true, Bool.not_false, Bool.false_or, Bool.true_or,
          Bool.or_false, Bool.or_true, if_true, if_false, Bool.false_eq_true]
      all_goals first
        | rfl
        | (rw [List.any_eq_false]; intro s hs; simp [h s hs])
  refine ⟨hm, ?_, ?_, rfl, rfl, rfl, sentinel_getSnapped p src⟩
  · simp [SnapManager.freeSnap, hm]
  · simp [SnapManager.constrainedSnap, hm]

/-- C5 witness: globally disabled snapping with a provider that would offer a
candidate. -/
theorem noProvider_returns_sentinel_witness :
    Fx.smOff.someSnapperMightSnap = false ∧
    Fx.smOff.freeSnap ⟨1, 2⟩ .node = sentinelPoint ⟨1, 2⟩ .node ∧
    Fx.smOff.constrainedSnap ⟨1, 2⟩ .node (ConstraintLine.ofDirection ⟨1, 0⟩) =
      sentinelPoint ⟨1, 2⟩ .node ∧
    (sentinelPoint (⟨1, 2⟩ : Pt) SnapSourceType.node).target = .undefined ∧
    (sentinelPoint (⟨1, 2⟩ : Pt) SnapSourceType.node).distance = NR_HUGE ∧
    (sentinelPoint (⟨1, 2⟩ : Pt) SnapSourceType.node).point = ⟨1, 2⟩ ∧
    (sentinelPoint (⟨1, 2⟩ : Pt) SnapSourceType.node).getSnapped = false :=
  noProvider_returns_sentinel Fx.smOff ⟨1, 2⟩ .node (ConstraintLine.ofDirection ⟨1, 0⟩)
    (Or.inl (by with_unfolding_all decide))

/-- C10 counterexample: every gate the claim names for leaving the point
unchanged holds — global snapping on, not postponed, the object snapper's
guide capability off, guide-to-guide snapping off — yet
`guideConstrainedSnap` moves the point, because the source gates that
function on the object snapper's general `ThisSnapperMightSnap`, which is
on. -/
theorem guideConstrainedSnap_gate_counterexample :
    (Fx.smMock (Fx.mkCand ⟨5, 5⟩ 0 1)).prefs.snapEnabledGlobally = true ∧
    (Fx.smMock (Fx.mkCand ⟨5, 5⟩ 0 1)).prefs.snapPostponedGlobally = false ∧
    (Fx.smMock (Fx.mkCand ⟨5, 5⟩ 0 1)).object.guidesMightSnap = false ∧
    (Fx.smMock (Fx.mkCand ⟨5, 5⟩ 0 1)).prefs.snapToGuides = false ∧
    (Fx.smMock (Fx.mkCand ⟨5, 5⟩ 0 1)).guideConstrainedSnap ⟨1, 1⟩ ⟨⟨0, 0⟩, ⟨0, 1⟩⟩ =
      ⟨5, 5⟩ ∧
    ¬ (Fx.smMock (Fx.mkCand ⟨5, 5⟩ 0 1)).guideConstrainedSnap ⟨1, 1⟩ ⟨⟨0, 0⟩, ⟨0, 1⟩⟩ =
      ⟨1, 1⟩ := by
  with_unfolding_all decide

/-- C10 (amended): `guideFreeSnap` leaves the by-reference point unchanged
whenever global snapping is disabled, snapping is postponed, or neither the
object snapper's guide capability nor guide-to-guide snapping is enabled;
`guideConstrainedSnap` does so whenever global snapping is disabled,
snapping is postponed, or neither the object snapper might snap at all
(its general capability, not the guide one) nor guide-to-guide snapping is
enabled. -/
theorem guideSnaps_unchanged_under_gates (sm : SnapManager) (p n : Pt) (g : SPGuide) :
    ((sm.prefs.snapEnabledGlobally = false ∨ sm.prefs.snapPostponedGlobally = true ∨
        (sm.object.guidesMightSnap = false ∧ sm.prefs.snapToGuides = false)) →
      sm.guideFreeSnap p n = p) ∧
    ((sm.prefs.snapEnabledGlobally = false ∨ sm.prefs.snapPostponedGlobally = true ∨
        (sm.object.mightSnap = false ∧ sm.prefs.snapToGuides = false)) →
      sm.guideConstrainedSnap p g = p) := by
  constructor
  · intro h
    rcases h with h | h | ⟨h1, h2⟩
    · simp [SnapManager.guideFreeSnap, h]
    · simp [SnapManager.guideFreeSnap, h]
    · cases hE : sm.prefs.snapEnabledGlobally <;>
        cases hP : sm.prefs.snapPostponedGlobally <;>
        simp [SnapManager.guideFreeSnap, hE, hP, h1, h2]
  · intro h
    rcases h with h | h | ⟨h1, h2⟩
    · simp [SnapManager.guideConstrainedSnap, h]
    · simp [SnapManager.guideConstrainedSnap, h]
    · cases hE : sm.prefs.snapEnabledGlobally <;>
        cases hP : sm.prefs.snapPostponedGlobally <;>
        simp [SnapManager.guideConstrainedSnap, hE, hP, h1, h2]

/-- C10 witness: with snapping globally disabled both guide snaps leave the
point unchanged. -/
theorem guideSnaps_unchanged_under_gates_witness :
    Fx.smOff.guideFreeSnap ⟨1, 1⟩ ⟨0, 1⟩ = ⟨1, 1⟩ ∧
    Fx.smOff.guideConstrainedSnap ⟨1, 1⟩ ⟨⟨0, 0⟩, ⟨0, 1⟩⟩ = ⟨1, 1⟩ :=
  ⟨(guideSnaps_unchanged_under_gates Fx.smOff ⟨1, 1⟩ ⟨0, 1⟩ ⟨⟨0, 0⟩, ⟨0, 1⟩⟩).1
      (Or.inl (by with_unfolding_all decide)),
   (guideSnaps_unchanged_under_gates Fx.smOff ⟨1, 1⟩ ⟨0, 1⟩ ⟨⟨0, 0⟩, ⟨0, 1⟩⟩).2
      (Or.inl (by with_unfolding_all decide))⟩

/-- A grid whose snapper cannot snap, or which found nothing within
tolerance, leaves the running best of `multipleOfGridPitch` unchanged. -/
theorem mgpStep_none (prefs : SnapPreferences) (t : Pt) (acc : Bool × Pt × ℚ) (g : Grid)
    (h : gridOutcome prefs t g = none) : mgpStep prefs t acc g = acc := by
  cases hms : g.snapper.mightSnap with
  | false => simp [mgpStep, hms]
  | true =>
      cases hgs : (findBestSnap prefs (t + g.origin) .undefined
          (g.snapper.runFree (t + g.origin)) false).getSnapped with
      | false => simp [mgpStep, hms, hgs]
      | true => simp [gridOutcome, hms, hgs] at h

/-- A grid that found a snap replaces the running best exactly when it is
strictly closer. -/
theorem mgpStep_some (prefs : SnapPreferences) (t : Pt) (acc : Bool × Pt × ℚ) (g : Grid)
    (q : Pt) (d : ℚ) (h : gridOutcome prefs t g = some (q, d)) :
    mgpStep prefs t acc g = if d < acc.2.2 then (true, q, d) else acc := by
  cases hms : g.snapper.mightSnap with
  | false => simp [gridOutcome, hms] at h
  | true =>
      cases hgs : (findBestSnap prefs (t + g.origin) .undefined
          (g.snapper.runFree (t + g.origin)) false).getSnapped with
      | false => simp [gridOutcome, hms, hgs] at h
      | true =>
          obtain ⟨h1, h2⟩ : (findBestSnap prefs (t + g.origin) .undefined
              (g.snapper.runFree (t + g.origin)) false).point - g.origin = q ∧
              (findBestSnap prefs (t + g.origin) .undefined
                (g.snapper.runFree (t + g.origin)) false).distance = d := by
            simpa [gridOutcome, hms, hgs] using h
          by_cases hd : d < acc.2.2
          · simp [mgpStep, hms, hgs, h1, h2, hd]
          · simp [mgpStep, hms, hgs, h1, h2, hd]

/-- When every grid is fruitless the `multipleOfGridPitch` fold is the
identity. -/
theorem mgpFold_none (prefs : SnapPreferences) (t : Pt) :
    ∀ (l : List Grid) (acc : Bool × Pt × ℚ), (∀ g ∈ l, gridOutcome prefs t g = none) →
      l.foldl (mgpStep prefs t) acc = acc
  | [], _, _ => rfl
  | g0 :: rest, acc, h => by
      rw [List.foldl_cons, mgpStep_none prefs t acc g0 (h g0 (List.mem_cons_self g0 rest))]
      exact mgpFold_none prefs t rest acc fun g hg => h g (List.mem_cons_of_mem g0 hg)

/-- A grid outcome always carries a finite distance: only snapped results
are recorded and a snapped result has distance below the sentinel. -/
theorem gridOutcome_lt (prefs : SnapPreferences) (t : Pt) (g : Grid) (q : Pt) (d : ℚ)
    (h : gridOutcome prefs t g = some (q, d)) : d < NR_HUGE := by
  cases hms : g.snapper.mightSnap with
  | false => simp [gridOutcome, hms] at h
  | true =>
      cases hgs : (findBestSnap prefs (t + g.origin) .undefined
          (g.snapper.runFree (t + g.origin)) false).getSnapped with
      | false => simp [gridOutcome, hms, hgs] at h
      | true =>
          obtain ⟨_h1, h2⟩ : (findBestSnap prefs (t + g.origin) .undefined
              (g.snapper.runFree (t + g.origin)) false).point - g.origin = q ∧
              (findBestSnap prefs (t + g.origin) .undefined
                (g.snapper.runFree (t + g.origin)) false).distance = d := by
            simpa [gridOutcome, hms, hgs] using h
          unfold SnappedPoint.getSnapped at hgs
          rw [Bool.and_eq_true] at hgs
          rw [← h2]
          exact of_decide_eq_true hgs.1

/-- The `multipleOfGridPitch` fold either leaves its accumulator untouched or
returns the outcome of one of the processed grids; its recorded distance
never exceeds the accumulator's nor any processed grid's outcome distance. -/
theorem mgpFold_spec (prefs : SnapPreferences) (t : Pt) :
    ∀ (l : List Grid) (acc : Bool × Pt × ℚ),
      ((l.foldl (mgpStep prefs t) acc = acc) ∨
        (∃ g, g ∈ l ∧ ∃ q d, gridOutcome prefs t g = some (q, d) ∧
          l.foldl (mgpStep prefs t) acc = (true, q, d))) ∧
      (∀ g ∈ l, ∀ q d, gridOutcome prefs t g = some (q, d) →
        (l.foldl (mgpStep prefs t) acc).2.2 ≤ d) ∧
      (l.foldl (mgpStep prefs t) acc).2.2 ≤ acc.2.2
  | [], acc => ⟨Or.inl rfl, by simp, le_refl _⟩
  | g0 :: rest, acc => by
      rw [List.foldl_cons]
      obtain ⟨ih1, ih2, ih3⟩ := mgpFold_spec prefs t rest (mgpStep prefs t acc g0)
      cases ho : gridOutcome prefs t g0 with
      | none =>
          rw [mgpStep_none prefs t acc g0 ho] at ih1 ih2 ih3 ⊢
          refine ⟨?_, ?_, ih3⟩
          · rcases ih1 with h | ⟨g, hg, hrest⟩
            · exact Or.inl h
            · exact Or.inr ⟨g, List.mem_cons_of_mem _ hg, hrest⟩
          · intro g hg q d hsome
            rcases List.mem_cons.mp hg with heq | hg
            · rw [heq, ho] at hsome
              exact absurd hsome (by simp)
            · exact ih2 g hg q d hsome
      | some qd =>
          obtain ⟨q0, d0⟩ := qd
          rw [mgpStep_some prefs t acc g0 q0 d0 ho] at ih1 ih2 ih3 ⊢
          by_cases hd : d0 < acc.2.2
          · rw [if_pos hd] at ih1 ih2 ih3 ⊢
            refine ⟨?_, ?_, le_trans ih3 (le_of_lt hd)⟩
            · rcases ih1 with h | ⟨g, hg, hrest⟩
              · exact Or.inr ⟨g0, List.mem_cons_self g0 rest, q0, d0, ho, h⟩
              · exact Or.inr ⟨g, List.mem_cons_of_mem _ hg, hrest⟩
            · intro g hg q d hsome
              rcases List.mem_cons.mp hg with heq | hg
              · rw [heq, ho] at hsome
                obtain ⟨_hq, hdq⟩ : q0 = q ∧ d0 = d := by simpa using hsome
                exact le_trans ih3 (le_of_eq hdq)
              · exact ih2 g hg q d hsome
          · rw [if_neg hd] at ih1 ih2 ih3 ⊢
            refine ⟨?_, ?_, ih3⟩
            · rcases ih1 with h | ⟨g, hg, hrest⟩
              · exact Or.inl h
              · exact Or.inr ⟨g, List.mem_cons_of_mem _ hg, hrest⟩
            · intro g hg q d hsome
              rcases List.mem_cons.mp hg with heq | hg
              · rw [heq, ho] at hsome
                obtain ⟨_hq, hdq⟩ : q0 = q ∧ d0 = d := by simpa using hsome
                exact le_trans ih3 (hdq ▸ not_lt.mp hd)
              · exact ih2 g hg q d hsome

/-- C8: grid-pitch quantization returns the offset unchanged when global
snapping is off or when no grid yields a within-tolerance result; when grids
do yield results, a grid of minimal (after compensating for that grid's
origin) snap distance wins: the returned multiple comes from a grid whose
distance is no larger than every other snapped grid's, so a strictly closer
grid always beats the rest, and no other preference order exists among
grids. -/
theorem multipleOfGridPitch_spec (sm : SnapManager) (t : Pt) :
    (sm.prefs.snapEnabledGlobally = false → sm.multipleOfGridPitch t = t) ∧
    ((∀ g ∈ sm.grids, gridOutcome sm.prefs t g = none) → sm.multipleOfGridPitch t = t) ∧
    (∀ g ∈ sm.grids, ∀ q d, gridOutcome sm.prefs t g = some (q, d) →
      ∃ g', g' ∈ sm.grids ∧ ∃ q' d', gridOutcome sm.prefs t g' = some (q', d') ∧
        d' ≤ d ∧
        (sm.prefs.snapEnabledGlobally = true → sm.gridsEnabled = true →
          sm.multipleOfGridPitch t = q')) := by
  refine ⟨?_, ?_, ?_⟩
  · intro h
    simp [SnapManager.multipleOfGridPitch, h]
  · intro h
    unfold SnapManager.multipleOfGridPitch
    cases hE : sm.prefs.snapEnabledGlobally with
    | false => simp
    | true =>
        cases hG : sm.gridsEnabled with
        | false => simp
        | true => rw [mgpFold_none sm.prefs t sm.grids (false, ⟨0, 0⟩, NR_HUGE) h]; simp
  · intro g hg q d hsome
    obtain ⟨f1, f2, _f3⟩ := mgpFold_spec sm.prefs t sm.grids (false, ⟨0, 0⟩, NR_HUGE)
    have hdlt := gridOutcome_lt sm.prefs t g q d hsome
    have hle := f2 g hg q d hsome
    rcases f1 with hfold | ⟨g', hg', q', d', hsome', hfold⟩
    · rw [hfold] at hle
      exact absurd (lt_of_le_of_lt hle hdlt) (lt_irrefl _)
    · refine ⟨g', hg', q', d', hsome', ?_, ?_⟩
      · rw [hfold] at hle
        exact hle
      · intro hE hG
        simp [SnapManager.multipleOfGridPitch, hE, hG, hfold]

/-- C8 witness: with snapping globally disabled the offset is unchanged. -/
theorem multipleOfGridPitch_spec_witness :
    Fx.smOff.multipleOfGridPitch ⟨3, 4⟩ = ⟨3, 4⟩ :=
  (multipleOfGridPitch_spec Fx.smOff ⟨3, 4⟩).1 (by with_unfolding_all decide)

/-- Rebuilding a point from its own coordinates is the identity. -/
theorem Pt.eta (p : Pt) : (⟨p.x, p.y⟩ : Pt) = p := rfl

/-- Recording the pointer distance does not change whether a result is
snapped. -/
theorem getSnapped_setPointer (sp : SnappedPoint) (q : ℚ) :
    ({ sp with pointerDistance := q } : SnappedPoint).getSnapped = sp.getSnapped := rfl

/-- A loop iteration whose snap attempt failed changes only the warning
count. -/
theorem txStep_not_snapped (sm : SnapManager) (cl : ConstraintLine) (ttype : TransformKind)
    (t origin : Pt) (dim : Dim2) (uniform constrained : Bool) (pointer : Pt)
    (acc : TxAcc) (op : Pt) (src : SnapSourceType)
    (h : (perPointSnap sm constrained cl ttype uniform dim origin op
        (_transformPoint (op, src) ttype t origin dim uniform) src).getSnapped = false) :
    txStep sm cl ttype t origin dim uniform constrained pointer acc op src =
      { acc with warnings := acc.warnings + perPointWarn constrained ttype uniform } := by
  simp [txStep, getSnapped_setPointer, h]

/-- A batch whose every snap attempt failed leaves the accumulator unchanged
apart from the warning count. -/
theorem txLoop_not_snapped (sm : SnapManager) (cl : ConstraintLine)
    (ttype : TransformKind) (t origin : Pt) (dim : Dim2)
    (uniform constrained : Bool) (pointer : Pt) :
    ∀ (l : List (Pt × SnapSourceType)) (acc : TxAcc),
      (∀ pr ∈ l, (perPointSnap sm constrained cl ttype uniform dim origin pr.1
          (_transformPoint pr ttype t origin dim uniform) pr.2).getSnapped = false) →
      ∃ w, txLoop sm cl ttype t origin dim uniform constrained pointer l acc =
        { acc with warnings := w }
  | [], acc, _ => ⟨acc.warnings, rfl⟩
  | (op, src) :: rest, acc, h => by
      simp only [txLoop]
      rw [txStep_not_snapped sm cl ttype t origin dim uniform constrained pointer acc op src
        (h (op, src) (List.mem_cons_self _ _))]
      obtain ⟨w, hw⟩ := txLoop_not_snapped sm cl ttype t origin dim uniform constrained
        pointer rest { acc with warnings := acc.warnings + perPointWarn constrained ttype uniform }
        fun pr hpr => h pr (List.mem_cons_of_mem _ hpr)
      exact ⟨w, hw⟩

/-- C9 counterexample: with snapping globally disabled no snapper might
snap, so trivially no input point of the batch yields a snap (the second
conjunct evaluates the per-point attempt for the single point of the batch:
not snapped) — yet `_snapTransformed` aborts early (snap.cpp:551-553) and
returns the default-constructed result, whose transformation is a fixed
constant of the `SnappedPoint` default constructor and not the caller's
proposed translation (3,1): the frozen claim's "equals the transformation
proposed by the caller" fails on this path. -/
theorem snapTransformed_abort_counterexample :
    Fx.smOff.someSnapperMightSnap = false ∧
    (perPointSnap Fx.smOff false (ConstraintLine.ofDirection ⟨0, 0⟩) .translation false
        .X ⟨0, 0⟩ ⟨1, 0⟩
        (_transformPoint ((⟨1, 0⟩ : Pt), SnapSourceType.node) .translation ⟨3, 1⟩ ⟨0, 0⟩
          .X false) .node).getSnapped = false ∧
    (_snapTransformed Fx.smOff [(⟨1, 0⟩, .node)] ⟨0, 0⟩ false
        (ConstraintLine.ofDirection ⟨0, 0⟩) .translation ⟨3, 1⟩ ⟨0, 0⟩ .X
        false).result.getSnapped = false ∧
    ¬ (_snapTransformed Fx.smOff [(⟨1, 0⟩, .node)] ⟨0, 0⟩ false
        (ConstraintLine.ofDirection ⟨0, 0⟩) .translation ⟨3, 1⟩ ⟨0, 0⟩ .X
        false).result.transformation = ⟨3, 1⟩ := by
  with_unfolding_all decide

/-- C9 (amended): when no input point of a batch transform yields a snap,
at least one snapper might snap (so the early abort of snap.cpp:551-553,
which returns the default result with a fixed default transformation
instead of the proposal, is not taken), and the proposed factors are
distinct from the sentinel (else the uniform scale fixup could rewrite a
sentinel axis), `_snapTransformed` returns a not-snapped result whose
recovered transformation equals the transformation proposed by the caller,
on every axis and for every transform kind. -/
theorem snapTransformed_nothing_snapped (sm : SnapManager)
    (points : List (Pt × SnapSourceType)) (pointer : Pt) (constrained : Bool)
    (cl : ConstraintLine) (ttype : TransformKind) (t origin : Pt) (dim : Dim2)
    (uniform : Bool)
    (hmight : sm.someSnapperMightSnap = true)
    (hx : t.x ≠ NR_HUGE) (hy : t.y ≠ NR_HUGE)
    (hnone : ∀ pr ∈ points, (perPointSnap sm constrained cl ttype uniform dim origin pr.1
        (_transformPoint pr ttype t origin dim uniform) pr.2).getSnapped = false) :
    (_snapTransformed sm points pointer constrained cl ttype t origin dim
        uniform).result.getSnapped = false ∧
    (_snapTransformed sm points pointer constrained cl ttype t origin dim
        uniform).result.transformation = t := by
  obtain ⟨w, hw⟩ := txLoop_not_snapped sm cl ttype t origin dim uniform constrained pointer
    points (txInit t) hnone
  have hres : (_snapTransformed sm points pointer constrained cl ttype t origin dim
      uniform).result = txFixup ttype uniform t { txInit t with warnings := w } := by
    simp only [_snapTransformed, hmight, Bool.not_true, Bool.false_eq_true, if_false]
    rw [hw]
  rw [hres]
  have hnm : ¬((NR_HUGE : ℚ) < 1000000) := by with_unfolding_all decide
  have hlt : ¬((NR_HUGE : ℚ) < NR_HUGE) := lt_irrefl _
  cases ttype <;>
    exact ⟨by simp [txFixup, txInit, SnappedPoint.getSnapped, SnappedPoint.defaultPoint,
        hx, hy, min_self, hnm, hlt],
      by simp [txFixup, txInit, hx, hy, Pt.eta]⟩

/-- C9 witness: a translation batch of one point against a provider that can
snap but finds nothing. -/
theorem snapTransformed_nothing_snapped_witness :
    (_snapTransformed Fx.smEmpty [(⟨1, 0⟩, .node)] ⟨0, 0⟩ false
        (ConstraintLine.ofDirection ⟨0, 0⟩) .translation ⟨3, 1⟩ ⟨0, 0⟩ .X
        false).result.getSnapped = false ∧
    (_snapTransformed Fx.smEmpty [(⟨1, 0⟩, .node)] ⟨0, 0⟩ false
        (ConstraintLine.ofDirection ⟨0, 0⟩) .translation ⟨3, 1⟩ ⟨0, 0⟩ .X
        false).result.transformation = ⟨3, 1⟩ :=
  snapTransformed_nothing_snapped Fx.smEmpty [(⟨1, 0⟩, .node)] ⟨0, 0⟩ false
    (ConstraintLine.ofDirection ⟨0, 0⟩) .translation ⟨3, 1⟩ ⟨0, 0⟩ .X false
    (by with_unfolding_all decide) (by with_unfolding_all decide)
    (by with_unfolding_all decide) (by with_unfolding_all decide)

/-- C6 counterexample: in a constrained batch scale with uniform = false a
diagnostic is logged (one warning) — but the snap IS attempted: the
provider's candidate (3,6) is snapped, the result comes back snapped and the
recovered scale (3,6) differs from the proposal (2,3), none of which could
happen had the snap for that point been skipped. -/
theorem nonUniformConstrainedScale_attempted_counterexample :
    Fx.runC6.warnings = 1 ∧
    Fx.runC6.result.getSnapped = true ∧
    Fx.runC6.result.transformation = ⟨3, 6⟩ := by
  with_unfolding_all decide

/-- An iteration of a non-uniform constrained batch scale always logs
exactly one diagnostic. -/
theorem txStep_nonUniformScale_warn (sm : SnapManager) (cl : ConstraintLine)
    (t origin : Pt) (dim : Dim2) (pointer : Pt) (acc : TxAcc) (op : Pt)
    (src : SnapSourceType) :
    (txStep sm cl .scale t origin dim false true pointer acc op src).warnings =
      acc.warnings + 1 := by
  by_cases h : (perPointSnap sm true cl .scale false dim origin op
      (_transformPoint (op, src) .scale t origin dim false) src).getSnapped = true
  · simp [txStep, getSnapped_setPointer, h, perPointWarn]
  · rw [Bool.not_eq_true] at h
    rw [txStep_not_snapped sm cl .scale t origin dim false true pointer acc op src h]
    rfl

/-- A non-uniform constrained batch scale logs one diagnostic per point. -/
theorem txLoop_nonUniformScale_warn (sm : SnapManager) (cl : ConstraintLine)
    (t origin : Pt) (dim : Dim2) (pointer : Pt) :
    ∀ (l : List (Pt × SnapSourceType)) (acc : TxAcc),
      (txLoop sm cl .scale t origin dim false true pointer l acc).warnings =
        acc.warnings + l.length
  | [], acc => by simp [txLoop]
  | (op, src) :: rest, acc => by
      simp only [txLoop]
      rw [txLoop_nonUniformScale_warn sm cl t origin dim pointer rest
        (txStep sm cl .scale t origin dim false true pointer acc op src),
        txStep_nonUniformScale_warn sm cl t origin dim pointer acc op src]
      simp only [List.length_cons]
      omega

/-- C6 (amended): in the batch transform path, a constrained scale with
uniform = false is flagged as a configuration error — the diagnostic channel
receives one warning per batch point — but the snap for each point IS still
attempted: the dedicated per-point constraint falls through to the caller's
constraint unmodified and the point is constrained-snapped along it. -/
theorem nonUniformConstrainedScale_logged_and_attempted (sm : SnapManager)
    (points : List (Pt × SnapSourceType)) (pointer : Pt) (cl : ConstraintLine)
    (t origin : Pt) (dim : Dim2)
    (h : sm.someSnapperMightSnap = true) :
    (_snapTransformed sm points pointer true cl .scale t origin dim false).warnings =
      points.length ∧
    (∀ op : Pt, dedicatedConstraint cl .scale false dim origin op = cl) ∧
    (∀ (op tp : Pt) (src : SnapSourceType),
      perPointSnap sm true cl .scale false dim origin op tp src =
        sm.constrainedSnap tp src cl) := by
  refine ⟨?_, ?_, ?_⟩
  · simp only [_snapTransformed, h, Bool.not_true, Bool.false_eq_true, if_false]
    rw [txLoop_nonUniformScale_warn]
    simp [txInit]
  · intro op
    simp [dedicatedConstraint]
  · intro op tp src
    simp [perPointSnap, dedicatedConstraint]

/-- C6 witness: the single-point non-uniform constrained scale logs one
warning and attempts (and wins) the snap with the caller constraint. -/
theorem nonUniformConstrainedScale_logged_and_attempted_witness :
    (_snapTransformed (Fx.smMock (Fx.mkCand ⟨3, 6⟩ 0 1)) [(⟨1, 1⟩, .node)] ⟨0, 0⟩ true
        (ConstraintLine.ofDirection ⟨0, 0⟩) .scale ⟨2, 3⟩ ⟨0, 0⟩ .X false).warnings =
      [((⟨1, 1⟩ : Pt), SnapSourceType.node)].length ∧
    (∀ op : Pt, dedicatedConstraint (ConstraintLine.ofDirection ⟨0, 0⟩) .scale false .X
        ⟨0, 0⟩ op = ConstraintLine.ofDirection ⟨0, 0⟩) ∧
    (∀ (op tp : Pt) (src : SnapSourceType),
      perPointSnap (Fx.smMock (Fx.mkCand ⟨3, 6⟩ 0 1)) true
          (ConstraintLine.ofDirection ⟨0, 0⟩) .scale false .X ⟨0, 0⟩ op tp src =
        (Fx.smMock (Fx.mkCand ⟨3, 6⟩ 0 1)).constrainedSnap tp src
          (ConstraintLine.ofDirection ⟨0, 0⟩)) :=
  nonUniformConstrainedScale_logged_and_attempted (Fx.smMock (Fx.mkCand ⟨3, 6⟩ 0 1))
    [(⟨1, 1⟩, .node)] ⟨0, 0⟩ (ConstraintLine.ofDirection ⟨0, 0⟩) ⟨2, 3⟩ ⟨0, 0⟩ .X
    (by with_unfolding_all decide)

/-- C7 counterexample: in the uniform constrained batch scale with proposal
(256,384) whose single point snaps exactly onto its proposed image, neither
axis recovers a finite factor (both per-axis recoveries stay at the
sentinel, as the first two conjuncts evaluate).  The claim's fallback — "a
never-recovered axis falls back to the proposed value for that axis" —
predicts the returned transformation (256,384); the code returns (256,256):
with both axes at the sentinel the per-axis update takes both metrics
`NR_HUGE - 256` and `NR_HUGE - 384` (both strictly below `NR_HUGE`, exactly
so in doubles as well since both are multiples of the 128-ulp of 1e18), the
uniform collapse keeps the sentinel on both axes, and the fixup then sets
axis x to its proposed 256 and axis y to axis x's value — so the y axis
ends at 256, not at its own proposed value 384.  Every double operation on
this trace of snap.cpp:654-757 is exact, so the compiled code follows the
same branches and returns the same (256,256). -/
theorem uniformScale_fallback_counterexample :
    scaleRecoverAxis 256 1 256 = NR_HUGE ∧
    scaleRecoverAxis 384 1 384 = NR_HUGE ∧
    Fx.runC7.result.transformation = ⟨256, 256⟩ ∧
    ¬ Fx.runC7.result.transformation = ⟨256, 384⟩ := by
  have h3 : Fx.runC7.result.transformation = ⟨256, 256⟩ := by
    norm_num [Fx.runC7, _snapTransformed, txLoop, txStep, txFixup, txInit, perPointSnap,
      dedicatedConstraint, ConstraintLine.projection, ConstraintLine.throughPoint,
      ConstraintLine.ofDirection, ConstraintLine.setPoint, Pt.dot, Pt.smul, Pt.add_def,
      Pt.sub_def, Pt.l2sq, _transformPoint, scaleRecoverAxis,
      SnapManager.constrainedSnap, SnapManager.someSnapperMightSnap,
      SnapManager.getSnappers, SnapManager.getGridSnappers, Fx.smMock, Fx.prefsOn,
      Fx.mockObject, Fx.noSnapper, collectConstrained, SnappedConstraints.append,
      SnappedConstraints.empty, findBestSnap, collectCandidates, getClosestSP,
      getClosestCurve, getClosestSL, getClosestIntersectionSL, getClosestIntersectionSL2,
      getClosestIntersectionCS, bestIntersectionOf, listPairs, listPairsAcross, optList,
      selectBestLoop, sentinelPoint, SnappedPoint.isOtherSnapBetter, Fx.mkCand,
      SnappedPoint.getSnapped, SnappedPoint.defaultPoint, NR_HUGE, abs]
  refine ⟨?_, ?_, h3, ?_⟩
  · norm_num [scaleRecoverAxis, NR_HUGE]
  · norm_num [scaleRecoverAxis, NR_HUGE]
  · rw [h3]
    decide

/-- The first component of either branch of the uniform collapse has equal
coordinates. -/
theorem ite_collapse_fst_xy (C : Prop) [Decidable C] (a b : ℚ) (u v : Pt) :
    ((if C then ((⟨a, a⟩ : Pt), u) else ((⟨b, b⟩ : Pt), v)).1).x =
      ((if C then ((⟨a, a⟩ : Pt), u) else ((⟨b, b⟩ : Pt), v)).1).y := by
  by_cases h : C <;> simp [h]

/-- A snapped iteration of a uniform batch scale equalizes the two axes of
the running best transformation (the uniform collapse); an unsnapped one
leaves it untouched. -/
theorem txStep_uniformScale_axes (sm : SnapManager) (cl : ConstraintLine)
    (t origin : Pt) (dim : Dim2) (constrained : Bool) (pointer : Pt)
    (acc : TxAcc) (op : Pt) (src : SnapSourceType)
    (h : acc.bestTransformation = t ∨
      acc.bestTransformation.x = acc.bestTransformation.y) :
    (txStep sm cl .scale t origin dim true constrained pointer acc op
        src).bestTransformation = t ∨
      (txStep sm cl .scale t origin dim true constrained pointer acc op
        src).bestTransformation.x =
      (txStep sm cl .scale t origin dim true constrained pointer acc op
        src).bestTransformation.y := by
  by_cases hs : (perPointSnap sm constrained cl .scale true dim origin op
      (_transformPoint (op, src) .scale t origin dim true) src).getSnapped = true
  · right
    simp only [txStep, getSnapped_setPointer, hs, if_true]
    exact ite_collapse_fst_xy _ _ _ _ _
  · rw [Bool.not_eq_true] at hs
    rw [txStep_not_snapped sm cl .scale t origin dim true constrained pointer acc op src hs]
    exact h

/-- Over a whole uniform batch scale, the running best transformation is
always either still the proposal or equal on both axes. -/
theorem txLoop_uniformScale_axes (sm : SnapManager) (cl : ConstraintLine)
    (t origin : Pt) (dim : Dim2) (constrained : Bool) (pointer : Pt) :
    ∀ (l : List (Pt × SnapSourceType)) (acc : TxAcc),
      (acc.bestTransformation = t ∨
        acc.bestTransformation.x = acc.bestTransformation.y) →
      ((txLoop sm cl .scale t origin dim true constrained pointer l
          acc).bestTransformation = t ∨
        (txLoop sm cl .scale t origin dim true constrained pointer l
          acc).bestTransformation.x =
        (txLoop sm cl .scale t origin dim true constrained pointer l
          acc).bestTransformation.y)
  | [], _, h => h
  | (op, src) :: rest, acc, h => by
      simp only [txLoop]
      exact txLoop_uniformScale_axes sm cl t origin dim constrained pointer rest _
        (txStep_uniformScale_axes sm cl t origin dim constrained pointer acc op src h)

/-- The scale fixup of a uniform batch never leaves a sentinel axis and
keeps the axes equal unless it reproduces the proposal. -/
theorem txFixup_uniformScale_axes (t : Pt) (acc : TxAcc)
    (hx : t.x ≠ NR_HUGE) (hy : t.y ≠ NR_HUGE)
    (h : acc.bestTransformation = t ∨
      acc.bestTransformation.x = acc.bestTransformation.y) :
    ((txFixup .scale true t acc).transformation = t ∨
      (txFixup .scale true t acc).transformation.x =
        (txFixup .scale true t acc).transformation.y) ∧
    (txFixup .scale true t acc).transformation.x ≠ NR_HUGE ∧
    (txFixup .scale true t acc).transformation.y ≠ NR_HUGE := by
  rcases h with h | h
  · refine ⟨Or.inl ?_, ?_, ?_⟩ <;> simp [txFixup, h, hx, hy, Pt.eta]
  · by_cases hv : acc.bestTransformation.x = NR_HUGE
    · have hvy : acc.bestTransformation.y = NR_HUGE := h ▸ hv
      by_cases htx : t.x < NR_HUGE
      · refine ⟨Or.inr ?_, ?_, ?_⟩ <;>
          simp [txFixup, hv, hvy, htx, hx, lt_self_iff_false]
      · refine ⟨Or.inl ?_, ?_, ?_⟩ <;>
          simp [txFixup, hv, hvy, htx, hx, hy, lt_self_iff_false, Pt.eta]
    · have hvy : acc.bestTransformation.y ≠ NR_HUGE := fun hc => hv (h.trans hc)
      refine ⟨Or.inr ?_, ?_, ?_⟩ <;> simp [txFixup, hv, hvy, h]

/-- C7 (amended): a batch scale with uniform = true never returns two
different finite recovered factors on the two axes: the returned
transformation either equals the caller's proposal or carries the same
factor on both axes (in particular, when only one axis acquired a finite
recovered value both returned axes equal that value), and no axis of the
returned transformation is ever the sentinel infinite value — a
never-recovered axis falls back to the other axis's value when that is
finite, else to the proposed value for that axis.  The proposal itself is
assumed sentinel-free. -/
theorem uniformScale_axes_consistent (sm : SnapManager)
    (points : List (Pt × SnapSourceType)) (pointer : Pt) (constrained : Bool)
    (cl : ConstraintLine) (t origin : Pt) (dim : Dim2)
    (hx : t.x ≠ NR_HUGE) (hy : t.y ≠ NR_HUGE) :
    ((_snapTransformed sm points pointer constrained cl .scale t origin dim
        true).result.transformation = t ∨
      (_snapTransformed sm points pointer constrained cl .scale t origin dim
        true).result.transformation.x =
      (_snapTransformed sm points pointer constrained cl .scale t origin dim
        true).result.transformation.y) ∧
    (_snapTransformed sm points pointer constrained cl .scale t origin dim
        true).result.transformation.x ≠ NR_HUGE ∧
    (_snapTransformed sm points pointer constrained cl .scale t origin dim
        true).result.transformation.y ≠ NR_HUGE := by
  cases hm : sm.someSnapperMightSnap with
  | false =>
      have h0 : (0 : ℚ) ≠ NR_HUGE := by with_unfolding_all decide
      simp [_snapTransformed, hm, SnappedPoint.defaultPoint, h0]
  | true =>
      have hres : (_snapTransformed sm points pointer constrained cl .scale t origin dim
          true).result = txFixup .scale true t
            (txLoop sm cl .scale t origin dim true constrained pointer points
              (txInit t)) := by
        simp [_snapTransformed, hm]
      rw [hres]
      exact txFixup_uniformScale_axes t _ hx hy
        (txLoop_uniformScale_axes sm cl t origin dim constrained pointer points (txInit t)
          (Or.inl rfl))

/-- C7 witness: the amended statement instantiated at the uniform scale run
of the counterexample. -/
theorem uniformScale_axes_consistent_witness :
    ((_snapTransformed (Fx.smMock (Fx.mkCand ⟨256, 384⟩ 0 1)) [(⟨1, 1⟩, .node)] ⟨0, 0⟩ true
        (ConstraintLine.ofDirection ⟨0, 0⟩) .scale ⟨256, 384⟩ ⟨0, 0⟩ .X
        true).result.transformation = ⟨256, 384⟩ ∨
      (_snapTransformed (Fx.smMock (Fx.mkCand ⟨256, 384⟩ 0 1)) [(⟨1, 1⟩, .node)] ⟨0, 0⟩ true
        (ConstraintLine.ofDirection ⟨0, 0⟩) .scale ⟨256, 384⟩ ⟨0, 0⟩ .X
        true).result.transformation.x =
      (_snapTransformed (Fx.smMock (Fx.mkCand ⟨256, 384⟩ 0 1)) [(⟨1, 1⟩, .node)] ⟨0, 0⟩ true
        (ConstraintLine.ofDirection ⟨0, 0⟩) .scale ⟨256, 384⟩ ⟨0, 0⟩ .X
        true).result.transformation.y) ∧
    (_snapTransformed (Fx.smMock (Fx.mkCand ⟨256, 384⟩ 0 1)) [(⟨1, 1⟩, .node)] ⟨0, 0⟩ true
        (ConstraintLine.ofDirection ⟨0, 0⟩) .scale ⟨256, 384⟩ ⟨0, 0⟩ .X
        true).result.transformation.x ≠ NR_HUGE ∧
    (_snapTransformed (Fx.smMock (Fx.mkCand ⟨256, 384⟩ 0 1)) [(⟨1, 1⟩, .node)] ⟨0, 0⟩ true
        (ConstraintLine.ofDirection ⟨0, 0⟩) .scale ⟨256, 384⟩ ⟨0, 0⟩ .X
        true).result.transformation.y ≠ NR_HUGE :=
  uniformScale_axes_consistent (Fx.smMock (Fx.mkCand ⟨256, 384⟩ 0 1)) [(⟨1, 1⟩, .node)]
    ⟨0, 0⟩ true (ConstraintLine.ofDirection ⟨0, 0⟩) ⟨256, 384⟩ ⟨0, 0⟩ .X
    (by with_unfolding_all decide) (by with_unfolding_all decide)

end Snap
